import Mathlib

/-!
Shallow embedding of the marvin_ia WhatsApp bot core and proofs about its
specification claims.

The embedding covers, from the JavaScript sources:
  - the keyword extractor (src/services/keywordExtractor.js, `extractKeywords`);
  - the persistence layer (src/models/Response.js, class `ResponseModel`):
    `findResponseByKeywords`, `saveResponse`, `saveFact`, `findFact`,
    `findRelationalFacts`, `findConceptProperties`;
  - the fact translator (src/services/messageProcessor.js,
    `traduzirParaModeloDados`);
  - the taxonomy analyzer and answer builder (`analisarTaxonomia`,
    `construirRespostaConsulta`);
  - the message orchestrator (`processMessage`);
  - the post-processing of the OpenAI reply (src/config/openai.js,
    `getOpenAIResponse`), including the deterministic fallback extractor for
    learning commands.

Modelling conventions:
  - MongoDB collections are lists of records; `findOne` is `List.find?`,
    `find` is `List.filter`, `insertOne` appends, `updateOne` replaces the
    first matching record in place. `Date` metadata (`created_at`,
    `last_updated`, regex timestamps) is omitted: no claim depends on it.
  - JavaScript string truthiness is modelled by comparison with the empty
    string; optional object fields are `Option`.
  - Case folding (`toLowerCase`, the regex flag `i`) is modelled with the
    ASCII case folding of `Char.toLower`; the inputs exercised by the
    claims are ASCII except for fixed literals that are never case-folded.
  - String primitives whose core implementations do not reduce in the
    kernel (`trim`, `toLower`, `splitOn`, `startsWith`, `toNat?`) are
    re-implemented structurally over character lists so that concrete
    executions can be checked by `decide`.
  - A property read on the plain-object frequency table of the keyword
    extractor traverses the prototype chain: a key naming a member of
    `Object.prototype` reads a truthy inherited value, so its count
    becomes a non-numeric string (`ContagemJs.texto`); the sort comparator
    on such a count is NaN, which `SortCompare` maps to +0.
  - The external OpenAI call is an oracle: `processMessage` receives the
    parsed classifier result (or `none` for a failed call) as an argument.
    The four query-analyzer regex captures of `analisarTaxonomia` are also
    oracle inputs (`RegexOraculo`), since no claim depends on the exact
    captured text; the simpler regexes of the fallback extractor are
    modelled directly.
-/

/-! ## Data model -/

/-- Subject of a knowledge entry (campo `sujeito` of an `entrada`).
The JS object may also carry `categoria` (used by `fato_entidade`);
an absent string field is the empty string. -/
structure Sujeito where
  tipo : String
  valor : String
  categoria : String
deriving DecidableEq, Repr

/-- Predicate of a knowledge entry (campo `predicado`). -/
structure Predicado where
  tipo : String
  valor : String
deriving DecidableEq, Repr

/-- Object of a knowledge entry (campo `objeto`). -/
structure Objeto where
  tipo : String
  valor : String
deriving DecidableEq, Repr

/-- Context of a knowledge entry (campo `contexto`); `temporalidade` is
never read by the code and is omitted. An absent `fonte` is the empty
string. -/
structure EntradaContexto where
  certeza : String
  fonte : String
deriving DecidableEq, Repr

/-- A knowledge entry as produced by the classifier (an element of
`conhecimento.entradas`). The `id` field is never read and is omitted. -/
structure Entrada where
  tipo : String
  sujeito : Option Sujeito
  predicado : Option Predicado
  objeto : Option Objeto
  contexto : Option EntradaContexto
deriving DecidableEq, Repr

/-- The `conhecimento` object of a classifier result. -/
structure Conhecimento where
  armazenar : Bool
  entradas : List Entrada
deriving DecidableEq, Repr

/-- A relationship record attached to a fact. -/
structure Relacionamento where
  tipo : String
  entidade : String
  descricao : String
deriving DecidableEq, Repr

/-- Context stored on a fact; the `timestamp` field is omitted (dates are
outside the model). -/
structure FatoContexto where
  certeza : String
  fonte : String
deriving DecidableEq, Repr

/-- A fact record, as built by the translator and stored in the `facts`
collection. `conceito` and `categoria` are only present on some kinds. -/
structure Fato where
  tipo : String
  chave : String
  entidade : String
  valor : String
  relacionamentos : List Relacionamento
  conceito : Option String
  categoria : Option String
  contexto : FatoContexto
deriving DecidableEq, Repr

/-- A cached response record (collection `responses`); timestamps omitted. -/
structure Resposta where
  palavras_chave : List String
  resposta : String
  classificacao : String
deriving DecidableEq, Repr

/-- An entity record (collection `entities`); the orchestrator never writes
to this collection, so only the fields needed to state that are kept. -/
structure Entidade where
  nome : String
  tipo : String
  aliases : List String
deriving DecidableEq, Repr

/-- Result of a save operation (`{success, updated}` of the JS model). -/
structure ResultadoSalvar where
  success : Bool
  updated : Bool
deriving DecidableEq, Repr

/-! ## Keyword extractor (keywordExtractor.js) -/

/-- The fixed Brazilian Portuguese stop-word list, copied verbatim. -/
def STOP_WORDS : List String :=
  ["a", "ao", "aos", "aquela", "aquelas", "aquele", "aqueles", "aquilo", "as", "até",
   "com", "como", "da", "das", "de", "dela", "delas", "dele", "deles", "depois",
   "do", "dos", "e", "ela", "elas", "ele", "eles", "em", "entre", "era",
   "eram", "éramos", "essa", "essas", "esse", "esses", "esta", "estas", "este",
   "estou", "eu", "foi", "fomos", "for", "foram", "fosse", "fossem", "fui",
   "há", "isso", "isto", "já", "lhe", "lhes", "me", "mesmo", "meu", "meus",
   "minha", "minhas", "muito", "muitos", "na", "não", "nas", "nem", "no", "nos",
   "nós", "nossa", "nossas", "nosso", "nossos", "num", "numa", "o", "os", "ou",
   "para", "pela", "pelas", "pelo", "pelos", "por", "qual", "quando", "que",
   "quem", "se", "seja", "sejam", "sejamos", "sem", "será", "serão", "serei",
   "seremos", "seria", "seriam", "seríamos", "seu", "seus", "só", "somos", "sou",
   "sua", "suas", "também", "te", "tem", "tém", "temos", "tenho", "teu", "teus",
   "tu", "tua", "tuas", "um", "uma", "umas", "uns", "você", "vocês", "vos"]

/-- The punctuation characters removed by the extractor, the character class
of the regex in the source (braces and the backquote written by code
point). -/
def pontuacaoRemovida : List Char :=
  ['.', ',', '/', '#', '!', '$', '%', '^', '&', '*', ';', ':',
   Char.ofNat 123, Char.ofNat 125, '=', '-', '_', Char.ofNat 96, '~', '(', ')']

/-- JavaScript whitespace (the class matched by the regex escape for
whitespace); Unicode spaces beyond ASCII are out of scope of the model. -/
def ehEspacoJs (c : Char) : Bool :=
  c == ' ' || c == '\t' || c == '\n' || c == '\r' || c == Char.ofNat 11 || c == Char.ofNat 12

/-- ASCII lower-casing of a string by characters (the JS `toLowerCase`;
kept as a plain list map so that the kernel can evaluate it). -/
def minusculas (s : String) : String :=
  String.mk (s.toList.map Char.toLower)

/-- ASCII upper-casing of a string by characters (the JS `toUpperCase`). -/
def maiusculas (s : String) : String :=
  String.mk (s.toList.map Char.toUpper)

/-- The JS `trim`: remove whitespace from both ends. -/
def aparar (s : String) : String :=
  String.mk (((s.toList.dropWhile ehEspacoJs).reverse.dropWhile ehEspacoJs).reverse)

/-- The JS `startsWith`. -/
def comecaCom (s prefixo : String) : Bool :=
  prefixo.toList.isPrefixOf s.toList

/-- Splitting on every occurrence of a nonempty separator, left to right
(the JS `split` and the Lean `splitOn`, re-implemented with structural fuel
so the kernel can evaluate it; one unit of fuel is consumed per character,
so a fuel of one more than the length always suffices). -/
def separarAux (sep : List Char) : Nat → List Char → List Char → List (List Char)
  | 0, l, atual => [atual.reverse ++ l]
  | _ + 1, [], atual => [atual.reverse]
  | combustivel + 1, c :: resto, atual =>
    if sep.isPrefixOf (c :: resto) then
      atual.reverse :: separarAux sep combustivel ((c :: resto).drop sep.length) []
    else
      separarAux sep combustivel resto (c :: atual)

/-- Splitting a string; the separators used in this development are all
nonempty literals. -/
def separar (s sep : String) : List String :=
  match sep.toList with
  | [] => [s]
  | c :: resto =>
    (separarAux (c :: resto) (s.toList.length + 1) s.toList []).map String.mk

/-- Decimal parse of a digit string (the JS canonical-integer test uses
it); `none` unless the string is nonempty and all digits. -/
def paraNat? (s : String) : Option Nat :=
  if s.toList ≠ [] ∧ s.toList.all Char.isDigit then
    some (s.toList.foldl (fun n c => n * 10 + (c.toNat - 48)) 0)
  else none

/-- Helper of the whitespace collapsing scan: when the flag is set the scan
is inside a run that has already been replaced by one space, and further
whitespace of the run is skipped. -/
def colapsarEspacosAux : Bool → List Char → List Char
  | _, [] => []
  | true, c :: resto =>
    if ehEspacoJs c then colapsarEspacosAux true resto
    else c :: colapsarEspacosAux false resto
  | false, c :: resto =>
    if ehEspacoJs c && (match resto.head? with | some d => ehEspacoJs d | none => false) then
      ' ' :: colapsarEspacosAux true resto
    else
      c :: colapsarEspacosAux false resto

/-- Replace every run of two or more whitespace characters by a single
space, leaving isolated whitespace characters as they are (the global
replacement of two-or-more whitespace by one space). -/
def colapsarEspacos (l : List Char) : List Char :=
  colapsarEspacosAux false l

/-- Lower-case, strip the fixed punctuation set, collapse whitespace runs. -/
def normalizarTexto (text : String) : String :=
  String.mk (colapsarEspacos (((minusculas text).toList).filter (fun c => !(pontuacaoRemovida.contains c))))

/-- Tokens surviving the length and stop-word filters. -/
def tokensFiltrados (text : String) : List String :=
  (separar (normalizarTexto text) " ").filter
    (fun w => decide (2 < w.length) && !(STOP_WORDS.contains w))

/-- A value of the frequency object as read by the bracket access on
`wordFrequency`. A read that finds an own count yields that number; a read
whose key names a member of `Object.prototype` (the table is a plain
object literal, so those members are inherited) yields that function or
object, which is truthy, so the expression produces a string
concatenation instead of an addition. `texto` stands for any such
non-numeric string: its exact contents never influence control flow,
because every arithmetic use of it evaluates to NaN. -/
inductive ContagemJs where
  | numero : Nat → ContagemJs
  | texto : ContagemJs
deriving DecidableEq, Repr

/-- The own property names of `Object.prototype`, inherited by the plain
object literal that the source uses as its frequency table. Every name
except `constructor` contains an upper-case letter or an underscore, which
the token normalization removes, so `constructor` is the only name in this
list that a surviving token can equal (`token_herdado_eh_constructor`). -/
def nomesHerdados : List String :=
  ["constructor", "hasOwnProperty", "isPrototypeOf", "propertyIsEnumerable",
   "toLocaleString", "toString", "valueOf", "__defineGetter__",
   "__defineSetter__", "__lookupGetter__", "__lookupSetter__", "__proto__"]

/-- Increment of an existing own count: a number grows by one; a poisoned
string count is truthy, so the source concatenates and the count stays a
non-numeric string. -/
def avancarContagem : ContagemJs → ContagemJs
  | ContagemJs.numero n => ContagemJs.numero (n + 1)
  | ContagemJs.texto => ContagemJs.texto

/-- One step of the counting loop of the source. An existing own count is
incremented. A missing key whose name is inherited from `Object.prototype`
reads a truthy value, so the stored count is a non-numeric string; the key
`__proto__` is special, as assigning to it invokes the inherited setter
and creates no own property at all; any other missing key stores the
number 1. -/
def incrementarContagem (acc : List (String × ContagemJs)) (w : String) :
    List (String × ContagemJs) :=
  if acc.any (fun p => p.1 == w) then
    acc.map (fun p => if p.1 == w then (p.1, avancarContagem p.2) else p)
  else if w == "__proto__" then acc
  else if nomesHerdados.contains w then acc ++ [(w, ContagemJs.texto)]
  else acc ++ [(w, ContagemJs.numero 1)]

/-- Word-frequency table in insertion order (the JS object
`wordFrequency`, whose non-index own keys enumerate in insertion
order). -/
def contarFrequencia (palavras : List String) : List (String × ContagemJs) :=
  palavras.foldl incrementarContagem []

/-- The raw value read from the table (`numero 0` for an absent key,
matching the fallback of the read; the sort comparator only ever reads
keys that are present). -/
def contagemDe (freq : List (String × ContagemJs)) (w : String) : ContagemJs :=
  ((freq.find? (fun p => p.1 == w)).map (fun p => p.2)).getD (ContagemJs.numero 0)

/-- The numeric frequency of a word (0 when absent or non-numeric). It is
the genuine occurrence count whenever no key of the table names an
`Object.prototype` member. -/
def frequenciaDe (freq : List (String × ContagemJs)) (w : String) : Nat :=
  match contagemDe freq w with
  | ContagemJs.numero n => n
  | ContagemJs.texto => 0

/-- The sort comparator of the source (frequency of the second argument
minus frequency of the first) as consumed by `SortCompare` of ECMA-262:
when either operand is a non-numeric string the subtraction evaluates to
NaN, which `SortCompare` maps to +0, a tie. -/
def comparacao (freq : List (String × ContagemJs)) (a b : String) : Int :=
  match contagemDe freq a, contagemDe freq b with
  | ContagemJs.numero na, ContagemJs.numero nb => (nb : Int) - (na : Int)
  | _, _ => 0

/-- No value of the frequency table is a poisoned non-numeric string.
Under this condition the comparator is a consistent comparison function,
so the engine sort is the stable descending sort modelled below. -/
def semContagemTexto (freq : List (String × ContagemJs)) : Prop :=
  ∀ p ∈ freq, p.2 ≠ ContagemJs.texto

/-- ASCII upper-case test, used to show which `Object.prototype` member
names can survive the token normalization. -/
def ehMaiusculaAscii (c : Char) : Bool :=
  decide (65 ≤ c.toNat) && decide (c.toNat ≤ 90)

/-- Whether a string is a canonical array-index property key in the sense
of the ECMAScript object model: the canonical decimal form of an integer
below 2^32 - 1. Such keys enumerate first, in ascending numeric order. -/
def ehIndiceDeArray (s : String) : Bool :=
  match paraNat? s with
  | some n => (s == "0" || decide (s.front ≠ '0')) && decide (n ≤ 4294967294)
  | none => false

/-- Numeric value used to order array-index keys. -/
def valorIndice (s : String) : Nat :=
  (paraNat? s).getD 0

/-- Insert into a list sorted ascending by numeric value. -/
def inserirAscendente (w : String) : List String → List String
  | [] => [w]
  | x :: resto =>
    if decide (valorIndice w < valorIndice x) then w :: x :: resto
    else x :: inserirAscendente w resto

/-- Sort array-index keys ascending by numeric value (all distinct). -/
def ordenarIndices : List String → List String
  | [] => []
  | x :: resto => inserirAscendente x (ordenarIndices resto)

/-- Enumeration order of the keys of the frequency object per the
ECMAScript own-property order: array-index keys first, ascending, then the
remaining keys in insertion order. -/
def ordemChavesObjeto (freq : List (String × ContagemJs)) : List String :=
  let chaves := freq.map (fun p => p.1)
  ordenarIndices (chaves.filter ehIndiceDeArray) ++ chaves.filter (fun s => !(ehIndiceDeArray s))

/-- Insert a word into a list sorted by the comparator, before any word
the comparator ties it with (the element being inserted comes earlier in
the enumeration, so this realizes a stable sort). -/
def inserirOrdenado (freq : List (String × ContagemJs)) (w : String) : List String → List String
  | [] => [w]
  | x :: resto =>
    if decide (0 < comparacao freq w x) then x :: inserirOrdenado freq w resto
    else w :: x :: resto

/-- Stable sort by the comparator. When every count is numeric the
comparator is a consistent comparison function and the engine sort — which
ECMA-262 requires to be stable — computes the same list as any stable
sort, in particular this one; the ordering theorems below therefore carry
that hypothesis. When a poisoned count is present the comparator is
inconsistent and ECMA-262 leaves the sort order implementation-defined;
the counterexample below only relies on a two-element sort whose single
comparison is a tie, which every stable sort leaves in place (the
behaviour observed on Node). -/
def ordenarPorFrequencia (freq : List (String × ContagemJs)) : List String → List String
  | [] => []
  | x :: resto => inserirOrdenado freq x (ordenarPorFrequencia freq resto)

/-- All candidate keywords in the order produced by the source: object-key
enumeration order, stably sorted by descending frequency. -/
def palavrasOrdenadas (text : String) : List String :=
  let freq := contarFrequencia (tokensFiltrados text)
  ordenarPorFrequencia freq (ordemChavesObjeto freq)

/-- `extractKeywords(text, maxKeywords)` of keywordExtractor.js. The JS
guard on a non-string argument is outside the typed model; the falsy-text
guard is the empty-string test. -/
def extractKeywords (text : String) (maxKeywords : Nat) : List String :=
  if text = "" then [] else (palavrasOrdenadas text).take maxKeywords

/-! ## Response cache (ResponseModel.findResponseByKeywords / saveResponse) -/

/-- Number of keywords of a stored response that occur among the search
keywords. -/
def contagemCorrespondencias (r : Resposta) (searchKeywords : List String) : Nat :=
  (r.palavras_chave.filter (fun kw => searchKeywords.contains kw)).length

/-- The minimum-match threshold: the source computes the ceiling of 0.6
times the keyword count in floating point; for every count up to 10 (the
slice bound) this equals the exact ceiling of 3n/5, which is (3n+4)/5 in
natural division. -/
def minimoCorrespondencias (n : Nat) : Nat :=
  (3 * n + 4) / 5

/-- Whether a stored response shares at least one keyword with the search
keywords (the candidate query of the source). -/
def intersectaPalavras (searchKeywords : List String) (r : Resposta) : Bool :=
  r.palavras_chave.any (fun kw => searchKeywords.contains kw)

/-- Whether a candidate has at least the minimum number of matches. -/
def atingeMinimo (searchKeywords : List String) (minK : Nat) (r : Resposta) : Bool :=
  decide (minK ≤ contagemCorrespondencias r searchKeywords)

/-- `findResponseByKeywords`: slice to the first 10 keywords, query for any
overlap, filter by the 60 percent threshold, return the first qualifying
candidate in collection order. -/
def findResponseByKeywords (colecao : List Resposta) (keywords : List String) :
    Option Resposta :=
  let searchKeywords := keywords.take 10
  let minKeywordsMatch := minimoCorrespondencias searchKeywords.length
  let responses := colecao.filter (intersectaPalavras searchKeywords)
  let filtradas := responses.filter (atingeMinimo searchKeywords minKeywordsMatch)
  filtradas.head?

/-- Replace the first record satisfying the predicate (the single-document
update targeted at the record found by the preceding query). -/
def atualizarPrimeiro {α : Type} (p : α → Bool) (f : α → α) : List α → List α
  | [] => []
  | x :: resto => if p x then f x :: resto else x :: atualizarPrimeiro p f resto

/-- `saveResponse`: update the record found by `findResponseByKeywords` in
place, or insert a new one. -/
def saveResponse (colecao : List Resposta) (dados : Resposta) :
    List Resposta × ResultadoSalvar :=
  let searchKeywords := dados.palavras_chave.take 10
  let minK := minimoCorrespondencias searchKeywords.length
  let qualifica := fun r =>
    intersectaPalavras searchKeywords r && atingeMinimo searchKeywords minK r
  match findResponseByKeywords colecao dados.palavras_chave with
  | some _ =>
    (atualizarPrimeiro qualifica
      (fun r => { r with resposta := dados.resposta, classificacao := dados.classificacao })
      colecao,
     { success := true, updated := true })
  | none => (colecao ++ [dados], { success := true, updated := false })

/-! ## Fact store manager (ResponseModel.saveFact and the find helpers) -/

/-- JavaScript truthiness of the optional `conceito` field. -/
def conceitoTruthy : Option String → Bool
  | some s => s != ""
  | none => false

/-- The natural-key query built by `saveFact`: kind, key and entity must
match, and for concept properties (kind `propriedade` with a truthy
`conceito`) the concept must match as well. -/
def correspondeChaveNatural (nf : Fato) (registro : Fato) : Bool :=
  registro.tipo == nf.tipo && registro.chave == nf.chave && registro.entidade == nf.entidade &&
    (if nf.tipo == "propriedade" && conceitoTruthy nf.conceito then
       registro.conceito == nf.conceito
     else true)

/-- The update applied to an existing record: new value, relationships when
supplied (with their entities normalized), and a context whose certainty is
forced to ALTA. -/
def atualizarRegistro (nf : Fato) (registro : Fato) : Fato :=
  { registro with
    valor := nf.valor,
    relacionamentos :=
      if nf.relacionamentos ≠ [] then
        nf.relacionamentos.map (fun rel => { rel with entidade := aparar (minusculas rel.entidade) })
      else registro.relacionamentos,
    contexto := { nf.contexto with certeza := "ALTA" } }

/-- `saveFact`: reject incomplete data, normalize the key fields, then
update the first record matching the natural key or insert the normalized
fact. -/
def saveFact (colecao : List Fato) (factData : Fato) : List Fato × ResultadoSalvar :=
  if factData.tipo = "" ∨ factData.chave = "" ∨ factData.entidade = "" ∨ factData.valor = "" then
    (colecao, { success := false, updated := false })
  else
    let nf := { factData with
      tipo := aparar (minusculas factData.tipo),
      chave := aparar (minusculas factData.chave),
      entidade := aparar (minusculas factData.entidade) }
    match colecao.find? (correspondeChaveNatural nf) with
    | some _ =>
      (atualizarPrimeiro (correspondeChaveNatural nf) (atualizarRegistro nf) colecao,
       { success := true, updated := true })
    | none => (colecao ++ [nf], { success := true, updated := false })

/-- `findFact`: exact lookup by kind, key and entity (the special case on
the literal string for the user entity lower-cases an already lower-case
string and is kept for fidelity). -/
def findFact (colecao : List Fato) (tipo chave entidade : String) : Option Fato :=
  let entidadeBusca := if entidade = "usuário" then minusculas entidade else entidade
  colecao.find? (fun f => f.tipo == tipo && f.chave == chave && f.entidade == entidadeBusca)

/-- `findRelationalFacts`: facts of a kind for an entity, optionally
restricted to an exact (case-insensitive) value or to a relationship
pointing at the value. -/
def findRelationalFacts (colecao : List Fato) (tipo entidade : String)
    (valor : Option String) : List Fato :=
  colecao.filter (fun f =>
    f.tipo == tipo && f.entidade == entidade &&
      (match valor with
       | none => true
       | some v =>
         let valorMin := minusculas v
         minusculas f.valor == valorMin ||
           f.relacionamentos.any (fun rel => rel.entidade == valorMin)))

/-- `findConceptProperties`: union of the three query shapes, with the
fallback to a generic definition lookup when none matches. -/
def findConceptProperties (colecao : List Fato) (conceito : String) : Option (List Fato) :=
  let conceitoMin := minusculas conceito
  let encontrados := colecao.filter (fun f =>
    (f.tipo == "entidade" && f.entidade == conceitoMin) ||
    (f.tipo == "propriedade" && f.entidade == "geral" && f.conceito == some conceitoMin) ||
    f.relacionamentos.any (fun rel => rel.tipo == "propriedade_de" && rel.entidade == conceitoMin))
  if encontrados ≠ [] then some encontrados
  else (findFact colecao "definicao" conceitoMin "geral").map (fun f => [f])

/-! ## Fact translator (messageProcessor.js, traduzirParaModeloDados) -/

/-- The five recognized entry kinds. -/
def tiposPermitidos : List String :=
  ["fato_identidade", "fato_relacao", "fato_definicao", "fato_propriedade", "fato_entidade"]

/-- The three recognized subject types. -/
def sujeitosPermitidos : List String :=
  ["USUÁRIO", "TERCEIRO", "CONCEITO"]

/-- ASCII word character (the regex word class: letters, digits,
underscore). -/
def ehCaractereDePalavra (c : Char) : Bool :=
  c.isAlpha || c.isDigit || c == '_'

/-- Whether the entry context certifies the fact with high certainty. -/
def certezaAlta (entrada : Entrada) : Bool :=
  match entrada.contexto with
  | some ctx => ctx.certeza == "ALTA"
  | none => false

/-- The semantic check on identity values: reject any character that is
neither a word character nor whitespace. -/
def contemSimboloInvalido (valor : String) : Bool :=
  valor.toList.any (fun c => !(ehCaractereDePalavra c || ehEspacoJs c))

/-- `normalizarValor`: trim, then strip leading and trailing non-word
characters. -/
def normalizarValor (valor : String) : String :=
  let aparado := (aparar valor).toList
  let semInicio := aparado.dropWhile (fun c => !(ehCaractereDePalavra c))
  String.mk ((semInicio.reverse.dropWhile (fun c => !(ehCaractereDePalavra c))).reverse)

/-- The per-kind validation block of the translator, applied to the raw
(pre-normalization) entry values. -/
def validarPorTipo (entrada : Entrada) (sujeito : Sujeito) (predicado : Predicado) : Bool :=
  if entrada.tipo = "fato_identidade" then
    sujeito.valor != "" && predicado.valor != "" && !(contemSimboloInvalido predicado.valor)
  else if entrada.tipo = "fato_relacao" then
    sujeito.valor != "" && predicado.valor != "" &&
      (match entrada.objeto with
       | some o =>
         o.valor != "" && !(sujeito.tipo == o.tipo && sujeito.valor == o.valor)
       | none => false)
  else if entrada.tipo = "fato_definicao" then
    sujeito.valor != "" && predicado.valor != "" && decide (5 ≤ predicado.valor.length)
  else if entrada.tipo = "fato_propriedade" then
    sujeito.valor != "" && predicado.valor != "" &&
      predicado.tipo != "" && decide (2 ≤ predicado.tipo.length)
  else if entrada.tipo = "fato_entidade" then
    sujeito.valor != "" && predicado.valor != ""
  else true

/-- The source of the fact context (`fonte` of the entry context, with the
fallback used by the translator). -/
def fonteDe (entrada : Entrada) : String :=
  match entrada.contexto with
  | some ctx => if ctx.fonte = "" then "api" else ctx.fonte
  | none => "api"

/-- The kind-specific mapping switch of the translator, applied to the
normalized subject, predicate and object. Returns `none` only on the
unreachable default branch (the kind was already validated) and on a
missing relation object (already validated as present). -/
def mapearFato (idUsuario tipoEntrada : String) (sujeito : Sujeito) (predicado : Predicado)
    (objeto : Option Objeto) (contexto : FatoContexto) : Option Fato :=
  if tipoEntrada = "fato_identidade" then
    some { tipo := "nome", chave := "nome",
           entidade := if sujeito.tipo = "USUÁRIO" then idUsuario else minusculas sujeito.valor,
           valor := predicado.valor, relacionamentos := [],
           conceito := none, categoria := none, contexto := contexto }
  else if tipoEntrada = "fato_relacao" then
    let chave := if predicado.tipo = "" then "relacao_generica" else predicado.tipo
    let entidade := if sujeito.tipo = "USUÁRIO" then idUsuario else minusculas sujeito.valor
    match objeto with
    | some o =>
      some { tipo := "relacao", chave := chave, entidade := entidade, valor := o.valor,
             relacionamentos :=
               [{ tipo := chave, entidade := minusculas o.valor,
                  descricao := chave ++ " de " ++ sujeito.valor }],
             conceito := none, categoria := none, contexto := contexto }
    | none => none
  else if tipoEntrada = "fato_definicao" then
    some { tipo := "definicao", chave := aparar (minusculas sujeito.valor), entidade := "geral",
           valor := predicado.valor, relacionamentos := [],
           conceito := none, categoria := none, contexto := contexto }
  else if tipoEntrada = "fato_propriedade" then
    let chave := if predicado.tipo = "" then "caracteristica" else predicado.tipo
    if sujeito.tipo = "USUÁRIO" then
      some { tipo := "propriedade", chave := chave, entidade := idUsuario,
             valor := predicado.valor, relacionamentos := [],
             conceito := none, categoria := none, contexto := contexto }
    else if sujeito.tipo = "CONCEITO" then
      some { tipo := "propriedade", chave := chave, entidade := "geral",
             valor := predicado.valor,
             relacionamentos :=
               [{ tipo := "propriedade_de", entidade := aparar (minusculas sujeito.valor),
                  descricao := chave ++ " de " ++ sujeito.valor }],
             conceito := some (aparar (minusculas sujeito.valor)), categoria := none,
             contexto := contexto }
    else
      some { tipo := "propriedade", chave := chave, entidade := aparar (minusculas sujeito.valor),
             valor := predicado.valor, relacionamentos := [],
             conceito := none, categoria := none, contexto := contexto }
  else if tipoEntrada = "fato_entidade" then
    some { tipo := "entidade",
           chave := if predicado.tipo = "" then "caracteristica" else predicado.tipo,
           entidade := aparar (minusculas sujeito.valor), valor := predicado.valor,
           relacionamentos := [],
           conceito := none,
           categoria := some (if sujeito.categoria = "" then "organizacao" else sujeito.categoria),
           contexto := contexto }
  else none

/-- The final safety check and normalization of the translator: every
essential field must be present, the key is lower-cased and trimmed, the
value is trimmed, rejected when empty and truncated at 500 characters with
an ellipsis. -/
def normalizarFato (fato : Fato) : Option Fato :=
  if fato.tipo = "" ∨ fato.chave = "" ∨ fato.entidade = "" ∨ fato.valor = "" then none
  else
    let chave := aparar (minusculas fato.chave)
    let valorAparado := aparar fato.valor
    if valorAparado = "" then none
    else
      let valorFinal :=
        if 500 < valorAparado.length then valorAparado.take 500 ++ "..." else valorAparado
      some { fato with chave := chave, valor := valorFinal }

/-- Processing of one knowledge entry by the translator: structural check,
certainty gate, kind and subject whitelists, per-kind validation, value
normalization, kind-specific mapping and final normalization. Returns
`none` exactly when the loop body of the source discards the entry. -/
def processarEntrada (idUsuario : String) (entrada : Entrada) : Option Fato :=
  match entrada.sujeito, entrada.predicado with
  | some sujeito, some predicado =>
    if entrada.tipo = "" then none
    else if !(certezaAlta entrada) then none
    else if !(decide (entrada.tipo ∈ tiposPermitidos)) then none
    else if !(decide (sujeito.tipo ∈ sujeitosPermitidos)) then none
    else if !(validarPorTipo entrada sujeito predicado) then none
    else
      let sujeitoN := { sujeito with valor := normalizarValor sujeito.valor }
      let predicadoN := { predicado with valor := normalizarValor predicado.valor }
      let objetoN := entrada.objeto.map (fun o => { o with valor := normalizarValor o.valor })
      let contexto : FatoContexto := { certeza := "ALTA", fonte := fonteDe entrada }
      match mapearFato idUsuario entrada.tipo sujeitoN predicadoN objetoN contexto with
      | some fato => normalizarFato fato
      | none => none
  | _, _ => none

/-- The unique key used by the intra-batch deduplication: kind, key and
entity joined by a separator (the concept is not part of the key). -/
def chaveUnica (f : Fato) : String :=
  f.tipo ++ "|" ++ f.chave ++ "|" ++ f.entidade

/-- Intra-batch deduplication: the first fact with a given unique key wins,
later duplicates are dropped. -/
def dedupFatos : List Fato → List String → List Fato
  | [], _ => []
  | f :: resto, vistos =>
    if vistos.contains (chaveUnica f) then dedupFatos resto vistos
    else f :: dedupFatos resto (chaveUnica f :: vistos)

/-- `traduzirParaModeloDados`: empty when storage is disabled or there are
no entries; otherwise each entry is processed independently and the
surviving facts are deduplicated within the batch. -/
def traduzirParaModeloDados (conhecimento : Conhecimento) (idUsuario : String) : List Fato :=
  if conhecimento.armazenar = false ∨ conhecimento.entradas = [] then []
  else
    let fatos := conhecimento.entradas.filterMap (processarEntrada idUsuario)
    if fatos = [] then [] else dedupFatos fatos []

/-! ## Classifier adapter post-processing (openai.js, getOpenAIResponse)

The network call and the JSON parse are outside the model; what is embedded
is the validation and learning-command post-processing applied to the
parsed object before it is returned. -/

/-- The taxonomic analysis block of a classifier result. -/
structure Taxonomia where
  tipo_interacao : String
  sujeito_principal : String
  categoria_conhecimento : String
  contexto_aplicacao : String
  nivel_certeza : String
deriving DecidableEq, Repr

/-- Parsed classifier reply before validation: any top-level field may be
absent. -/
structure DadosJson where
  palavras_chave : Option (List String)
  resposta : Option String
  classificacao : Option String
  analise_taxonomica : Option Taxonomia
  conhecimento : Option Conhecimento
deriving DecidableEq, Repr

/-- Substring test on character lists (the JS string `includes`). -/
def contemSubAux (sub : List Char) : List Char → Bool
  | [] => sub.isPrefixOf ([] : List Char)
  | c :: resto => sub.isPrefixOf (c :: resto) || contemSubAux sub resto

/-- Substring test on strings. -/
def contemSub (s sub : String) : Bool :=
  contemSubAux sub.toList s.toList

/-- Leftmost match of the name-extraction regex: the literal "meu nome"
followed by one of the three verb alternatives and a space, capturing the
following characters up to the first period or comma (at least one). The
prefix comparison is case-folded; the capture keeps the original case. -/
def matchMeuNomeAux : List Char → Option (List Char)
  | [] => none
  | c :: resto =>
    let l := c :: resto
    let ll := l.map Char.toLower
    if ("meu nome é ".toList).isPrefixOf ll then
      let cap := (l.drop 11).takeWhile (fun d => d != '.' && d != ',')
      if cap ≠ [] then some cap else matchMeuNomeAux resto
    else if ("meu nome e ".toList).isPrefixOf ll then
      let cap := (l.drop 11).takeWhile (fun d => d != '.' && d != ',')
      if cap ≠ [] then some cap else matchMeuNomeAux resto
    else if ("meu nome seria ".toList).isPrefixOf ll then
      let cap := (l.drop 15).takeWhile (fun d => d != '.' && d != ',')
      if cap ≠ [] then some cap else matchMeuNomeAux resto
    else matchMeuNomeAux resto

/-- String version of the name-extraction match. -/
def matchMeuNome (s : String) : Option String :=
  (matchMeuNomeAux s.toList).map String.mk

/-- Leftmost match of the definition-extraction regex: a nonempty run of
non-space characters, the literal " significa " (case-folded), then a
nonempty capture up to the first period. -/
def matchSignificaAux : List Char → Option (List Char × List Char)
  | [] => none
  | c :: resto =>
    let l := c :: resto
    if c != ' ' then
      let corrida := l.takeWhile (fun d => d != ' ')
      let depois := l.drop corrida.length
      if (" significa ".toList).isPrefixOf (depois.map Char.toLower) then
        let cap := (depois.drop 11).takeWhile (fun d => d != '.')
        if cap ≠ [] then some (corrida, cap) else matchSignificaAux resto
      else matchSignificaAux resto
    else matchSignificaAux resto

/-- String version of the definition-extraction match. -/
def matchSignifica (s : String) : Option (String × String) :=
  (matchSignificaAux s.toList).map (fun par => (String.mk par.1, String.mk par.2))

/-- Scan for an occurrence of the connective " é " with at least one
character before it and at least one after. -/
def buscaXeY (consumido : Nat) : List Char → Bool
  | [] => false
  | c :: resto =>
    ((" é ".toList).isPrefixOf (c :: resto) && decide (0 < consumido) &&
       decide (3 < (c :: resto).length)) ||
      buscaXeY (consumido + 1) resto

/-- The anchored simple-statement test: the whole text is a nonempty
colon-free segment, the connective " é ", and another nonempty colon-free
segment. Equivalently: no colon anywhere and an interior occurrence of the
connective. -/
def testeXeY (s : String) : Bool :=
  !(s.toList.contains ':') && buscaXeY 0 s.toList

/-- Second element of the split on the connective (the JS `partes[1]`,
empty when the split produced no second part). -/
def segundaParte (partes : List String) : String :=
  match partes with
  | _ :: p :: _ => if p = "" then "" else aparar p
  | _ => ""

/-- The deterministic fallback extractor applied by the adapter when a
learning command comes back without knowledge entries: four regex-driven
shapes, each producing a single entry with certainty ALTA. -/
def fallbackEntrada (conteudo senderId : String) : Entrada :=
  let dados :=
    if contemSub (minusculas conteudo) "meu nome" then
      ("fato_identidade",
       ({ tipo := "USUÁRIO", valor := senderId, categoria := "" } : Sujeito),
       ({ tipo := "nome",
          valor := match matchMeuNome conteudo with
                   | some nome => aparar nome
                   | none => conteudo } : Predicado))
    else if contemSub (minusculas conteudo) " significa " then
      match matchSignifica conteudo with
      | some par =>
        ("fato_definicao",
         ({ tipo := "CONCEITO", valor := aparar par.1, categoria := "" } : Sujeito),
         ({ tipo := "significado", valor := aparar par.2 } : Predicado))
      | none =>
        let partes := separar conteudo " significa "
        ("fato_definicao",
         ({ tipo := "CONCEITO", valor := aparar (partes.headD ""), categoria := "" } : Sujeito),
         ({ tipo := "significado", valor := segundaParte partes } : Predicado))
    else if testeXeY conteudo then
      let partes := separar conteudo " é "
      let primeira := partes.headD ""
      if comecaCom (minusculas primeira) "meu " then
        ("fato_propriedade",
         ({ tipo := "USUÁRIO", valor := senderId, categoria := "" } : Sujeito),
         ({ tipo := minusculas (aparar (primeira.drop 4)),
            valor := aparar ((partes.drop 1).headD "") } : Predicado))
      else
        ("fato_definicao",
         ({ tipo := "CONCEITO", valor := aparar primeira, categoria := "" } : Sujeito),
         ({ tipo := "definicao", valor := aparar ((partes.drop 1).headD "") } : Predicado))
    else
      ("fato_definicao",
       ({ tipo := "CONCEITO", valor := "termo", categoria := "" } : Sujeito),
       ({ tipo := "definicao", valor := conteudo } : Predicado))
  { tipo := dados.1,
    sujeito := some dados.2.1,
    predicado := some dados.2.2,
    objeto := none,
    contexto := some { certeza := "ALTA", fonte := "declaração_direta" } }

/-- Force the certainty of an entry to ALTA, creating a context when the
entry has none (the per-entry mutation applied to a learning command). -/
def forcarAlta (entrada : Entrada) : Entrada :=
  { entrada with
    contexto := some { certeza := "ALTA",
                       fonte := match entrada.contexto with
                                | some ctx => ctx.fonte
                                | none => "" } }

/-- JavaScript truthiness of the validated top-level fields: the keyword
array and the taxonomic analysis need only be present (arrays and objects
are truthy), the two strings must be present and nonempty. -/
def camposObrigatoriosPresentes (jsonData : DadosJson) : Bool :=
  jsonData.palavras_chave.isSome &&
    (match jsonData.resposta with | some s => s != "" | none => false) &&
    (match jsonData.classificacao with | some s => s != "" | none => false) &&
    jsonData.analise_taxonomica.isSome

/-- The pure post-processing of `getOpenAIResponse`: reject a reply missing
required fields; on a learning command force storage on, either by mapping
every returned entry to certainty ALTA or, when no entries came back, by
building one entry with the fallback extractor. -/
def processarRespostaOpenAI (userMessage senderId : String) (jsonData : DadosJson) :
    Option DadosJson :=
  if !(camposObrigatoriosPresentes jsonData) then none
  else
    let isLearningCommand := comecaCom userMessage "/aprender "
    if isLearningCommand then
      match jsonData.conhecimento with
      | some c =>
        if c.entradas = [] then
          some { jsonData with
                 conhecimento := some
                   { armazenar := true,
                     entradas := [fallbackEntrada (aparar (userMessage.drop 10)) senderId] } }
        else
          some { jsonData with
                 conhecimento := some
                   { armazenar := true, entradas := c.entradas.map forcarAlta } }
      | none =>
        some { jsonData with
               conhecimento := some
                 { armazenar := true,
                   entradas := [fallbackEntrada (aparar (userMessage.drop 10)) senderId] } }
    else some jsonData

/-! ## Message orchestrator (messageProcessor.js, processMessage) -/

/-- A validated classifier result as consumed by the orchestrator. The
adapter validation guarantees the four checked fields; the knowledge block
belongs to the classifier JSON contract. -/
structure DadosOpenAI where
  palavras_chave : List String
  resposta : String
  classificacao : String
  analise_taxonomica : Taxonomia
  conhecimento : Conhecimento
deriving DecidableEq, Repr

/-- Oracle for the four query-analyzer regex captures over the original
message text: the third-party name capture, the concept-definition capture
and the two property-pattern capture pairs (property, concept) and
(concept, property). No claim depends on the text actually captured, so
these are inputs of the model. -/
structure RegexOraculo where
  terceiro : Option String
  definicao : Option String
  propriedade : Option (String × String)
  propriedadeSimples : Option (String × String)
deriving DecidableEq, Repr

/-- Query parameters extracted by the analyzer. -/
structure Parametros where
  entidade : Option String
  valor : Option String
  propriedade : Option String
deriving DecidableEq, Repr

/-- A query descriptor (`consulta` of the source). -/
structure Consulta where
  tipo : String
  alvo : String
  parametros : Parametros
deriving DecidableEq, Repr

/-- Result of a store lookup dispatched for a query: the single-fact shape
of `findFact` or the fact-list shape of the other finders. -/
inductive ResultadoBusca where
  | umFato : Fato → ResultadoBusca
  | variosFatos : List Fato → ResultadoBusca
deriving DecidableEq, Repr

/-- JavaScript truthiness of an optional captured string. -/
def valorTruthy : Option String → Bool
  | some s => s != ""
  | none => false

/-- `analisarTaxonomia`: only questions are queries; the knowledge category
maps to the query kind; the primary subject maps to the target, with the
required parameters taken from the regex captures; the final guards give up
when a required parameter is missing. -/
def analisarTaxonomia (taxonomia : Taxonomia) (oraculo : RegexOraculo) : Option Consulta :=
  if taxonomia.tipo_interacao ≠ "pergunta" then none
  else
    let tipoConsulta :=
      if taxonomia.categoria_conhecimento = "IDENTIDADE" then some "identidade"
      else if taxonomia.categoria_conhecimento = "RELAÇÃO" then some "relacao"
      else if taxonomia.categoria_conhecimento = "DEFINIÇÃO" then some "definicao"
      else if taxonomia.categoria_conhecimento = "PROPRIEDADE" then some "propriedade"
      else none
    match tipoConsulta with
    | none => none
    | some tipo =>
      let consulta :=
        if taxonomia.sujeito_principal = "USUÁRIO" then
          some { tipo := tipo, alvo := "usuario",
                 parametros := { entidade := some "usuario", valor := none, propriedade := none } }
        else if taxonomia.sujeito_principal = "TERCEIRO" then
          let valor := match oraculo.terceiro with
                       | some v => if v ≠ "" then some (minusculas v) else none
                       | none => none
          some { tipo := tipo, alvo := "terceiro",
                 parametros := { entidade := none, valor := valor, propriedade := none } }
        else if taxonomia.sujeito_principal = "CONCEITO" then
          let parametros :=
            if tipo = "definicao" then
              { entidade := none,
                valor := match oraculo.definicao with
                         | some v => if v ≠ "" then some (minusculas v) else none
                         | none => none,
                propriedade := none }
            else if tipo = "propriedade" then
              match oraculo.propriedade with
              | some par =>
                { entidade := none, valor := some (minusculas (aparar par.2)),
                  propriedade := some (minusculas par.1) }
              | none =>
                match oraculo.propriedadeSimples with
                | some par =>
                  { entidade := none, valor := some (minusculas (aparar par.1)),
                    propriedade := some (minusculas par.2) }
                | none => { entidade := none, valor := none, propriedade := none }
            else { entidade := none, valor := none, propriedade := none }
          some { tipo := tipo, alvo := "conceito", parametros := parametros }
        else none
      match consulta with
      | none => none
      | some c =>
        if c.alvo = "terceiro" ∧ !(valorTruthy c.parametros.valor) then none
        else if c.alvo = "conceito" ∧ !(valorTruthy c.parametros.valor) then none
        else some c

/-- The store-lookup dispatch of the orchestrator (the switch on the query
kind). Returns `none` when no lookup applies or the lookup found nothing
(the source then leaves the generic path to answer). -/
def executarConsulta (facts : List Fato) (consulta : Consulta) (senderId : String) :
    Option ResultadoBusca :=
  if consulta.tipo = "identidade" then
    if consulta.alvo = "usuario" then
      (findFact facts "nome" "nome" senderId).map ResultadoBusca.umFato
    else none
  else if consulta.tipo = "relacao" then
    if consulta.alvo = "usuario" then
      let fatos := findRelationalFacts facts "relacao" senderId none
      if fatos = [] then none else some (ResultadoBusca.variosFatos fatos)
    else if consulta.alvo = "terceiro" ∧ valorTruthy consulta.parametros.valor then
      let fatos := findRelationalFacts facts "relacao" senderId consulta.parametros.valor
      if fatos = [] then none else some (ResultadoBusca.variosFatos fatos)
    else none
  else if consulta.tipo = "definicao" then
    if consulta.alvo = "conceito" ∧ valorTruthy consulta.parametros.valor then
      (findFact facts "definicao" ((consulta.parametros.valor).getD "") "geral").map
        ResultadoBusca.umFato
    else none
  else if consulta.tipo = "propriedade" then
    if consulta.alvo = "conceito" ∧ valorTruthy consulta.parametros.valor then
      (findConceptProperties facts ((consulta.parametros.valor).getD "")).map
        ResultadoBusca.variosFatos
    else none
  else none

/-- Capitalize the first character (the JS `charAt(0).toUpperCase()` plus
the remainder). -/
def capitalizar (s : String) : String :=
  match s.toList with
  | [] => ""
  | c :: resto => String.mk (c.toUpper :: resto)

/-- `construirRespostaConsulta`: format an answer from the lookup result,
or `none` when no formatting rule applies. On the (unreachable at the call
sites) empty fact list of a self relation query the source would throw; the
model answers `none`. -/
def construirRespostaConsulta (consulta : Consulta) : ResultadoBusca → Option String
  | ResultadoBusca.umFato fato =>
    if consulta.tipo = "identidade" then
      if fato.tipo = "nome" then some ("Seu nome é " ++ fato.valor ++ ".") else none
    else if consulta.tipo = "definicao" then
      some (maiusculas fato.chave ++ " significa " ++ fato.valor ++ ".")
    else some (fato.chave ++ ": " ++ fato.valor)
  | ResultadoBusca.variosFatos fatos =>
    if consulta.tipo = "relacao" then
      if consulta.alvo = "terceiro" then
        let procurado := minusculas (consulta.parametros.valor.getD "")
        let especificos := fatos.filter (fun f => minusculas f.valor == procurado)
        if especificos ≠ [] then
          some ((consulta.parametros.valor.getD "") ++ " é seu " ++
            String.intercalate ", " (especificos.map (fun f => f.chave)) ++ ".")
        else
          let relacionados := fatos.filter (fun f => contemSub (minusculas f.valor) procurado)
          if relacionados ≠ [] then
            some ("Encontrei: " ++ String.intercalate ", " (relacionados.map (fun f => f.valor)))
          else none
      else
        match fatos with
        | [] => none
        | primeiro :: _ =>
          let valores := String.intercalate ", " (fatos.map (fun f => f.valor))
          if primeiro.chave = "amigo" then
            if fatos.length = 1 then some ("Seu amigo é " ++ valores ++ ".")
            else some ("Seus amigos são: " ++ valores ++ ".")
          else some (primeiro.chave ++ ": " ++ valores)
    else if consulta.tipo = "propriedade" then
      if consulta.alvo = "conceito" then
        let nomeConceito := capitalizar (consulta.parametros.valor.getD "")
        let todas := some ("Informações sobre " ++ nomeConceito ++ ":\n- " ++
          String.intercalate "\n- " (fatos.map (fun f => f.chave ++ ": " ++ f.valor)))
        match consulta.parametros.propriedade with
        | some prop =>
          if prop ≠ "" then
            let filtradas := fatos.filter (fun f => contemSub (minusculas f.chave) prop)
            if filtradas ≠ [] then
              some ("As " ++ prop ++ " de " ++ nomeConceito ++ " são: " ++
                String.intercalate ", " (filtradas.map (fun f => f.valor)))
            else todas
          else todas
        | none => todas
      else none
    else
      some ("Encontrei estas informações: " ++
        String.intercalate ", " (fatos.map (fun f => f.valor)))

/-- The specific-query pipeline of the orchestrator for a message that is
not a learning command: analyze the taxonomy, dispatch the lookup, format
the answer; `none` whenever any stage declines. -/
def respostaEspecifica (facts : List Fato) (data : DadosOpenAI) (oraculo : RegexOraculo)
    (senderId : String) : Option String :=
  match analisarTaxonomia data.analise_taxonomica oraculo with
  | none => none
  | some consulta =>
    match executarConsulta facts consulta senderId with
    | none => none
    | some resultado => construirRespostaConsulta consulta resultado

/-- The persistent store seen by the orchestrator: the three collections. -/
structure Banco where
  responses : List Resposta
  facts : List Fato
  entities : List Entidade
deriving DecidableEq, Repr

/-- The branch of `processMessage` that consults the classifier: a failed
call yields the fixed apology; otherwise the specific-query path is tried
for non-learning messages; a learning command persists the generic answer
to the response cache, attempts to save every translated fact in order and
reports the count of translated facts; a non-learning message falls back to
the classifier answer text with no writes. -/
def processarComOpenAI (banco : Banco) (isLearningCommand : Bool) (senderId : String)
    (openaiResult : Option DadosOpenAI) (oraculo : RegexOraculo) : Banco × String :=
  match openaiResult with
  | none =>
    (banco, "Desculpe, não consegui processar sua pergunta. Por favor, tente novamente mais tarde.")
  | some data =>
    let respostaConsulta :=
      if isLearningCommand then none
      else respostaEspecifica banco.facts data oraculo senderId
    match respostaConsulta with
    | some texto => (banco, texto)
    | none =>
      let fatos := traduzirParaModeloDados data.conhecimento senderId
      if isLearningCommand then
        let respostasNovas := (saveResponse banco.responses
          { palavras_chave := data.palavras_chave, resposta := data.resposta,
            classificacao := data.classificacao }).1
        let fatosNovos := fatos.foldl (fun colecao fato => (saveFact colecao fato).1) banco.facts
        ({ banco with responses := respostasNovas, facts := fatosNovos },
         "Aprendizado concluído com sucesso. " ++ toString fatos.length ++
           " fatos foram armazenados.")
      else (banco, data.resposta)

/-- `processMessage`: detect the learning command, strip its prefix, look
up the response cache on the extracted keywords, and either answer from the
cache (non-learning messages only) or continue with the classifier result.
The reply returned is the final response text before the display-name
prefix is prepended for delivery. -/
def processMessage (banco : Banco) (messageText senderId : String)
    (openaiResult : Option DadosOpenAI) (oraculo : RegexOraculo) : Banco × String :=
  let isLearningCommand := comecaCom messageText "/aprender "
  let processText := if isLearningCommand then aparar (messageText.drop 10) else messageText
  let extractedKeywords := extractKeywords processText 10
  match findResponseByKeywords banco.responses extractedKeywords with
  | some respostaExistente =>
    if isLearningCommand then
      processarComOpenAI banco isLearningCommand senderId openaiResult oraculo
    else (banco, respostaExistente.resposta)
  | none => processarComOpenAI banco isLearningCommand senderId openaiResult oraculo

/-! ## General lemmas about the embedding -/

theorem normalizarFato_spec {fato f : Fato} (h : normalizarFato fato = some f) :
    f.tipo = fato.tipo ∧ f.entidade = fato.entidade ∧ f.conceito = fato.conceito ∧
      f.chave = aparar (minusculas fato.chave) ∧ f.tipo ≠ "" ∧ f.entidade ≠ "" ∧ f.valor ≠ "" := by
  unfold normalizarFato at h
  split at h
  · exact absurd h (by simp)
  · rename_i hcampos
    push_neg at hcampos
    obtain ⟨htipo, hchave, hent, hval⟩ := hcampos
    dsimp only [] at h
    split at h
    · exact absurd h (by simp)
    · rename_i hvazio
      have hf := Option.some.inj h
      subst hf
      refine ⟨rfl, rfl, rfl, rfl, htipo, hent, ?_⟩
      by_cases hlen : 500 < (aparar fato.valor).length
      · simp only [if_pos hlen]
        intro heq
        have hl := congrArg String.length heq
        rw [String.length_append] at hl
        have htres : ("..." : String).length = 3 := rfl
        have hzero : ("" : String).length = 0 := rfl
        rw [htres, hzero] at hl
        omega
      · simp only [if_neg hlen]
        exact hvazio

theorem mem_dedupFatos {f : Fato} :
    ∀ (l : List Fato) (vistos : List String), f ∈ dedupFatos l vistos → f ∈ l := by
  intro l
  induction l with
  | nil => intro vistos h; simp [dedupFatos] at h
  | cons g resto ih =>
    intro vistos h
    unfold dedupFatos at h
    split at h
    · exact List.mem_cons_of_mem g (ih vistos h)
    · rcases List.mem_cons.mp h with hfg | hresto
      · exact hfg ▸ List.mem_cons_self g resto
      · exact List.mem_cons_of_mem g (ih _ hresto)

theorem traduzir_mem {conhecimento : Conhecimento} {idUsuario : String} {f : Fato}
    (h : f ∈ traduzirParaModeloDados conhecimento idUsuario) :
    ∃ entrada ∈ conhecimento.entradas, processarEntrada idUsuario entrada = some f := by
  unfold traduzirParaModeloDados at h
  split at h
  · simp at h
  · dsimp only [] at h
    split at h
    · simp at h
    · have hmem := mem_dedupFatos _ _ h
      rcases List.mem_filterMap.mp hmem with ⟨entrada, hent, hproc⟩
      exact ⟨entrada, hent, hproc⟩

theorem processarEntrada_spec {idUsuario : String} {entrada : Entrada} {f : Fato}
    (h : processarEntrada idUsuario entrada = some f) :
    f.tipo ≠ "" ∧ f.entidade ≠ "" ∧ f.valor ≠ "" := by
  unfold processarEntrada at h
  split at h
  · split at h
    · exact absurd h (by simp)
    · split at h
      · exact absurd h (by simp)
      · split at h
        · exact absurd h (by simp)
        · split at h
          · exact absurd h (by simp)
          · split at h
            · exact absurd h (by simp)
            · dsimp only [] at h
              split at h
              · rename_i fato hmap
                have hs := normalizarFato_spec h
                exact ⟨hs.2.2.2.2.1, hs.2.2.2.2.2.1, hs.2.2.2.2.2.2⟩
              · exact absurd h (by simp)
  · exact absurd h (by simp)

theorem processarEntrada_none_de_certeza (idUsuario : String) (entrada : Entrada)
    (h : certezaAlta entrada = false) : processarEntrada idUsuario entrada = none := by
  unfold processarEntrada
  cases hs : entrada.sujeito with
  | none => rfl
  | some sujeito =>
    cases hp : entrada.predicado with
    | none => rfl
    | some predicado =>
      simp [h]

/-! ## Claim C2: the certainty gate of the translator -/

/-- C2: for every knowledge entry whose context certainty is not ALTA, and
for every batch and every user id, the translator discards that entry: the
output of the batch is the output of the batch without the entry, so no
fact derived from it ever appears. -/
theorem certeza_gate (idUsuario : String) (armazenar : Bool)
    (antes depois : List Entrada) (entrada : Entrada)
    (h : certezaAlta entrada = false) :
    traduzirParaModeloDados { armazenar := armazenar, entradas := antes ++ entrada :: depois }
        idUsuario =
      traduzirParaModeloDados { armazenar := armazenar, entradas := antes ++ depois }
        idUsuario := by
  have hnone := processarEntrada_none_de_certeza idUsuario entrada h
  unfold traduzirParaModeloDados
  cases armazenar with
  | false => simp
  | true =>
    simp only [Bool.true_eq_false, false_or]
    have hfm : (antes ++ entrada :: depois).filterMap (processarEntrada idUsuario) =
        (antes ++ depois).filterMap (processarEntrada idUsuario) := by
      rw [List.filterMap_append, List.filterMap_append, List.filterMap_cons, hnone]
    by_cases hvazio : antes ++ depois = []
    · rcases List.append_eq_nil.mp hvazio with ⟨ha, hd⟩
      subst ha; subst hd
      simp [List.filterMap, hnone]
    · rw [if_neg (by simp), if_neg hvazio, hfm]

/-- Witness for C2: a concrete entry with certainty BAIXA is dropped from a
concrete batch. -/
theorem certeza_gate_witness :
    certezaAlta { tipo := "fato_definicao",
                  sujeito := some { tipo := "CONCEITO", valor := "java", categoria := "" },
                  predicado := some { tipo := "significado", valor := "uma linguagem" },
                  objeto := none,
                  contexto := some { certeza := "BAIXA", fonte := "" } } = false ∧
    traduzirParaModeloDados
        { armazenar := true,
          entradas := [{ tipo := "fato_definicao",
                         sujeito := some { tipo := "CONCEITO", valor := "java", categoria := "" },
                         predicado := some { tipo := "significado", valor := "uma linguagem" },
                         objeto := none,
                         contexto := some { certeza := "BAIXA", fonte := "" } }] } "5511" =
      traduzirParaModeloDados { armazenar := true, entradas := [] } "5511" :=
  ⟨by decide,
   certeza_gate "5511" true [] []
     { tipo := "fato_definicao",
       sujeito := some { tipo := "CONCEITO", valor := "java", categoria := "" },
       predicado := some { tipo := "significado", valor := "uma linguagem" },
       objeto := none,
       contexto := some { certeza := "BAIXA", fonte := "" } } (by decide)⟩

/-! ## Claim C9: truncation of long fact values -/

/-- C9: in the final normalization stage of the translator, a fact whose
trimmed value exceeds 500 characters keeps exactly the first 500 characters
of the trimmed value followed by the ellipsis marker. -/
theorem truncamento_valor (fato : Fato)
    (htipo : fato.tipo ≠ "") (hchave : fato.chave ≠ "") (hent : fato.entidade ≠ "")
    (hlen : 500 < (aparar fato.valor).length) :
    normalizarFato fato =
      some { fato with chave := aparar (minusculas fato.chave),
                       valor := (aparar fato.valor).take 500 ++ "..." } := by
  have hval : fato.valor ≠ "" := by
    intro h
    rw [h] at hlen
    have : aparar "" = "" := by decide
    rw [this] at hlen
    exact absurd hlen (by decide)
  have hvazio : aparar fato.valor ≠ "" := by
    intro h
    rw [h] at hlen
    exact absurd hlen (by decide)
  unfold normalizarFato
  rw [if_neg (by simp [htipo, hchave, hent, hval])]
  dsimp only []
  rw [if_neg hvazio, if_pos hlen]

/-- A fact whose value is 600 identical characters. -/
def fatoLongo : Fato :=
  { tipo := "definicao", chave := "texto", entidade := "geral",
    valor := String.mk (List.replicate 600 'a'), relacionamentos := [],
    conceito := none, categoria := none,
    contexto := { certeza := "ALTA", fonte := "api" } }

theorem dropWhile_espacos_replicate_a (n : Nat) :
    List.dropWhile ehEspacoJs (List.replicate n 'a') = List.replicate n 'a' := by
  cases n with
  | zero => rfl
  | succ m =>
    rw [List.replicate_succ]
    simp [List.dropWhile, ehEspacoJs]

theorem aparar_fatoLongo : aparar fatoLongo.valor = fatoLongo.valor := by
  show aparar (String.mk (List.replicate 600 'a')) = String.mk (List.replicate 600 'a')
  unfold aparar
  rw [show (String.mk (List.replicate 600 'a')).toList = List.replicate 600 'a' from rfl,
      dropWhile_espacos_replicate_a, List.reverse_replicate,
      dropWhile_espacos_replicate_a, List.reverse_replicate]

theorem comprimento_fatoLongo : 500 < (aparar fatoLongo.valor).length := by
  rw [aparar_fatoLongo]
  show 500 < (String.mk (List.replicate 600 'a')).length
  have : (String.mk (List.replicate 600 'a')).length = (List.replicate 600 'a').length := rfl
  rw [this, List.length_replicate]
  omega

/-- Witness for C9: the 600-character value of `fatoLongo` is stored as its
first 500 characters followed by the ellipsis. -/
theorem truncamento_valor_witness :
    500 < (aparar fatoLongo.valor).length ∧
    normalizarFato fatoLongo =
      some { fatoLongo with chave := aparar (minusculas fatoLongo.chave),
                            valor := (aparar fatoLongo.valor).take 500 ++ "..." } :=
  ⟨comprimento_fatoLongo,
   truncamento_valor fatoLongo (by decide) (by decide) (by decide) comprimento_fatoLongo⟩

/-! ## Claim C1: idempotence of translate-then-save

The claim fails as stated: a valid relation entry whose predicate type is
whitespace passes every validation (whitespace is truthy in JS), but the
final key normalization of the translator lower-cases and trims the key to
the empty string, and `saveFact` then rejects the fact as incomplete, so
translating and persisting twice stores nothing and never reports an
update. With the proviso that the translated key is nonempty, the
idempotence holds and is proved below. -/

/-- A relation entry whose predicate type is two spaces: every validation
passes, but the translated key trims to the empty string. -/
def entradaChaveBranca : Entrada :=
  { tipo := "fato_relacao",
    sujeito := some { tipo := "TERCEIRO", valor := "ana", categoria := "" },
    predicado := some { tipo := "  ", valor := "x" },
    objeto := some { tipo := "CONCEITO", valor := "bob" },
    contexto := some { certeza := "ALTA", fonte := "" } }

/-- The fact the translator produces for `entradaChaveBranca`. -/
def fatoChaveBranca : Fato :=
  { tipo := "relacao", chave := "", entidade := "ana", valor := "bob",
    relacionamentos := [{ tipo := "  ", entidade := "bob", descricao := "   de ana" }],
    conceito := none, categoria := none,
    contexto := { certeza := "ALTA", fonte := "api" } }

/-- Counterexample to C1: translating `entradaChaveBranca` yields one fact
whose key is empty; persisting it twice stores nothing, and the second
`saveFact` call reports failure instead of `updated = true`. -/
theorem idempotencia_contraexemplo :
    traduzirParaModeloDados { armazenar := true, entradas := [entradaChaveBranca] } "5511999" =
      [fatoChaveBranca] ∧
    fatoChaveBranca.chave = "" ∧
    saveFact [] fatoChaveBranca = ([], { success := false, updated := false }) ∧
    (saveFact (saveFact [] fatoChaveBranca).1 fatoChaveBranca).1 = [] ∧
    (saveFact (saveFact [] fatoChaveBranca).1 fatoChaveBranca).2.updated = false := by
  decide

/-- C1 (amended): for every fact produced by the translator whose key is
nonempty, saving it twice into an empty store keeps exactly one record, the
first call inserts, the second call matches the natural key and reports
`updated = true`, and the stored value equals the translated value. -/
theorem salvar_fato_idempotente (conhecimento : Conhecimento) (idUsuario : String) (f : Fato)
    (hmem : f ∈ traduzirParaModeloDados conhecimento idUsuario)
    (hchave : f.chave ≠ "") :
    (saveFact [] f).2.updated = false ∧
    (saveFact (saveFact [] f).1 f).1.length = 1 ∧
    (saveFact (saveFact [] f).1 f).2.updated = true ∧
    ∀ g ∈ (saveFact (saveFact [] f).1 f).1, g.valor = f.valor := by
  obtain ⟨entrada, _, hproc⟩ := traduzir_mem hmem
  obtain ⟨htipo, hent, hval⟩ := processarEntrada_spec hproc
  have hguard : ¬(f.tipo = "" ∨ f.chave = "" ∨ f.entidade = "" ∨ f.valor = "") := by
    simp [htipo, hchave, hent, hval]
  have h1 : saveFact [] f =
      ([{ f with tipo := aparar (minusculas f.tipo), chave := aparar (minusculas f.chave),
                 entidade := aparar (minusculas f.entidade) }],
       { success := true, updated := false }) := by
    unfold saveFact
    rw [if_neg hguard]
    rfl
  have hpred : correspondeChaveNatural
      { f with tipo := aparar (minusculas f.tipo), chave := aparar (minusculas f.chave),
               entidade := aparar (minusculas f.entidade) }
      { f with tipo := aparar (minusculas f.tipo), chave := aparar (minusculas f.chave),
               entidade := aparar (minusculas f.entidade) } = true := by
    unfold correspondeChaveNatural
    simp only [beq_self_eq_true, Bool.and_true, Bool.true_and]
    split <;> simp
  have h2 : saveFact (saveFact [] f).1 f =
      ([atualizarRegistro
          { f with tipo := aparar (minusculas f.tipo), chave := aparar (minusculas f.chave),
                   entidade := aparar (minusculas f.entidade) }
          { f with tipo := aparar (minusculas f.tipo), chave := aparar (minusculas f.chave),
                   entidade := aparar (minusculas f.entidade) }],
       { success := true, updated := true }) := by
    rw [h1]
    unfold saveFact
    rw [if_neg hguard]
    dsimp only []
    rw [List.find?_cons_of_pos _ hpred]
    unfold atualizarPrimeiro
    rw [if_pos hpred]
  refine ⟨by rw [h1], by rw [h2]; rfl, by rw [h2], ?_⟩
  intro g hg
  rw [h2] at hg
  rcases List.mem_singleton.mp hg with rfl
  rfl

/-- A well-formed definition entry used to witness the amended C1. -/
def entradaDefinicaoBoa : Entrada :=
  { tipo := "fato_definicao",
    sujeito := some { tipo := "CONCEITO", valor := "python", categoria := "" },
    predicado := some { tipo := "significado", valor := "uma linguagem" },
    objeto := none,
    contexto := some { certeza := "ALTA", fonte := "" } }

/-- The fact translated from `entradaDefinicaoBoa`. -/
def fatoDefinicaoBom : Fato :=
  { tipo := "definicao", chave := "python", entidade := "geral", valor := "uma linguagem",
    relacionamentos := [], conceito := none, categoria := none,
    contexto := { certeza := "ALTA", fonte := "api" } }

/-- Witness for the amended C1 at a concrete translated fact. -/
theorem salvar_fato_idempotente_witness :
    fatoDefinicaoBom ∈
      traduzirParaModeloDados { armazenar := true, entradas := [entradaDefinicaoBoa] } "55" ∧
    fatoDefinicaoBom.chave ≠ "" ∧
    ((saveFact [] fatoDefinicaoBom).2.updated = false ∧
     (saveFact (saveFact [] fatoDefinicaoBom).1 fatoDefinicaoBom).1.length = 1 ∧
     (saveFact (saveFact [] fatoDefinicaoBom).1 fatoDefinicaoBom).2.updated = true ∧
     ∀ g ∈ (saveFact (saveFact [] fatoDefinicaoBom).1 fatoDefinicaoBom).1,
       g.valor = fatoDefinicaoBom.valor) :=
  ⟨by decide, by decide,
   salvar_fato_idempotente { armazenar := true, entradas := [entradaDefinicaoBoa] } "55"
     fatoDefinicaoBom (by decide) (by decide)⟩

/-! ## Claim C8: intra-batch deduplication ignores the concept -/

theorem saveFact_em_vazio (f : Fato)
    (h : ¬(f.tipo = "" ∨ f.chave = "" ∨ f.entidade = "" ∨ f.valor = "")) :
    saveFact [] f =
      ([{ f with tipo := aparar (minusculas f.tipo), chave := aparar (minusculas f.chave),
                 entidade := aparar (minusculas f.entidade) }],
       { success := true, updated := false }) := by
  unfold saveFact
  rw [if_neg h]
  rfl

theorem processar_propriedade_conceito {idUsuario : String} {e : Entrada} {s : Sujeito}
    {p : Predicado} {f : Fato}
    (htipo : e.tipo = "fato_propriedade") (hsuj : e.sujeito = some s)
    (hstipo : s.tipo = "CONCEITO") (hpred : e.predicado = some p)
    (hproc : processarEntrada idUsuario e = some f) :
    f.tipo = "propriedade" ∧ f.entidade = "geral" ∧
      f.chave = aparar (minusculas (if p.tipo = "" then "caracteristica" else p.tipo)) ∧
      f.conceito = some (aparar (minusculas (normalizarValor s.valor))) := by
  unfold processarEntrada at hproc
  rw [hsuj, hpred, htipo] at hproc
  dsimp only [] at hproc
  rw [if_neg (by decide)] at hproc
  split at hproc
  · exact absurd hproc (by simp)
  · rw [hstipo] at hproc
    rw [if_neg (by decide), if_neg (by decide)] at hproc
    split at hproc
    · exact absurd hproc (by simp)
    · unfold mapearFato at hproc
      rw [if_neg (by decide), if_neg (by decide), if_neg (by decide), if_pos rfl] at hproc
      dsimp only [] at hproc
      rw [if_neg (by decide), if_pos rfl] at hproc
      dsimp only [] at hproc
      have hs := normalizarFato_spec hproc
      exact ⟨hs.1, hs.2.1, hs.2.2.2.1, hs.2.2.1⟩

/-- C8: two valid property entries about different concepts that share the
same predicate type both translate to entity geral with the same key, so
the intra-batch deduplication key (kind, key, entity) makes the second
fact drop from the translator output, even though the upsert query of the
fact store distinguishes the two records by their concept field (saving
both facts directly yields two stored records). -/
theorem dedup_lote_ignora_conceito
    (idUsuario : String) (e1 e2 : Entrada) (s1 s2 : Sujeito) (p1 p2 : Predicado) (f1 f2 : Fato)
    (ht1 : e1.tipo = "fato_propriedade") (ht2 : e2.tipo = "fato_propriedade")
    (hs1 : e1.sujeito = some s1) (hs2 : e2.sujeito = some s2)
    (hc1 : s1.tipo = "CONCEITO") (hc2 : s2.tipo = "CONCEITO")
    (hp1 : e1.predicado = some p1) (hp2 : e2.predicado = some p2)
    (hmesmoPred : p1.tipo = p2.tipo)
    (hproc1 : processarEntrada idUsuario e1 = some f1)
    (hproc2 : processarEntrada idUsuario e2 = some f2)
    (hconceitos : f1.conceito ≠ f2.conceito)
    (htruthy : conceitoTruthy f2.conceito = true)
    (hch1 : f1.chave ≠ "") (hch2 : f2.chave ≠ "") :
    f1.entidade = "geral" ∧ f2.entidade = "geral" ∧ f1.chave = f2.chave ∧
      traduzirParaModeloDados { armazenar := true, entradas := [e1, e2] } idUsuario = [f1] ∧
      (saveFact (saveFact [] f1).1 f2).1.length = 2 := by
  obtain ⟨ht1f, he1f, hk1f, hco1f⟩ := processar_propriedade_conceito ht1 hs1 hc1 hp1 hproc1
  obtain ⟨ht2f, he2f, hk2f, hco2f⟩ := processar_propriedade_conceito ht2 hs2 hc2 hp2 hproc2
  obtain ⟨-, -, hv1⟩ := processarEntrada_spec hproc1
  obtain ⟨-, -, hv2⟩ := processarEntrada_spec hproc2
  have hchavesIguais : f1.chave = f2.chave := by rw [hk1f, hk2f, hmesmoPred]
  have hchaveUnica : chaveUnica f2 = chaveUnica f1 := by
    unfold chaveUnica
    rw [ht1f, ht2f, he1f, he2f, hchavesIguais]
  have htraduzir :
      traduzirParaModeloDados { armazenar := true, entradas := [e1, e2] } idUsuario = [f1] := by
    unfold traduzirParaModeloDados
    rw [if_neg (by simp)]
    dsimp only []
    rw [List.filterMap_cons, hproc1, List.filterMap_cons, hproc2, List.filterMap_nil]
    dsimp only []
    rw [if_neg (by simp)]
    unfold dedupFatos
    rw [if_neg (by simp)]
    unfold dedupFatos
    rw [hchaveUnica, if_pos (by simp)]
    rfl
  have hguard1 : ¬(f1.tipo = "" ∨ f1.chave = "" ∨ f1.entidade = "" ∨ f1.valor = "") := by
    simp [ht1f, hch1, he1f, hv1]
  have hguard2 : ¬(f2.tipo = "" ∨ f2.chave = "" ∨ f2.entidade = "" ∨ f2.valor = "") := by
    simp [ht2f, hch2, he2f, hv2]
  have hnf1tipo : aparar (minusculas f1.tipo) = "propriedade" := by rw [ht1f]; decide
  have hnf2tipo : aparar (minusculas f2.tipo) = "propriedade" := by rw [ht2f]; decide
  have hnaoCorresponde :
      correspondeChaveNatural
        { f2 with tipo := aparar (minusculas f2.tipo), chave := aparar (minusculas f2.chave),
                  entidade := aparar (minusculas f2.entidade) }
        { f1 with tipo := aparar (minusculas f1.tipo), chave := aparar (minusculas f1.chave),
                  entidade := aparar (minusculas f1.entidade) } = false := by
    unfold correspondeChaveNatural
    dsimp only []
    rw [hnf2tipo]
    rw [if_pos (by simp [htruthy])]
    have : (f1.conceito == f2.conceito) = false := beq_eq_false_iff_ne.mpr hconceitos
    simp [this]
  have hdoisRegistros : (saveFact (saveFact [] f1).1 f2).1.length = 2 := by
    rw [saveFact_em_vazio f1 hguard1]
    unfold saveFact
    rw [if_neg hguard2]
    dsimp only []
    rw [List.find?_cons_of_neg _ (by rw [hnaoCorresponde]; simp), List.find?_nil]
    rfl
  exact ⟨he1f, he2f, hchavesIguais, htraduzir, hdoisRegistros⟩

/-- First concrete concept-property entry for the C8 witness. -/
def entradaPropriedadePython : Entrada :=
  { tipo := "fato_propriedade",
    sujeito := some { tipo := "CONCEITO", valor := "python", categoria := "" },
    predicado := some { tipo := "criador", valor := "Guido" },
    objeto := none,
    contexto := some { certeza := "ALTA", fonte := "" } }

/-- Second concrete concept-property entry for the C8 witness, about a
different concept with the same predicate type. -/
def entradaPropriedadeJava : Entrada :=
  { tipo := "fato_propriedade",
    sujeito := some { tipo := "CONCEITO", valor := "java", categoria := "" },
    predicado := some { tipo := "criador", valor := "Gosling" },
    objeto := none,
    contexto := some { certeza := "ALTA", fonte := "" } }

/-- The fact translated from `entradaPropriedadePython`. -/
def fatoPropriedadePython : Fato :=
  { tipo := "propriedade", chave := "criador", entidade := "geral", valor := "Guido",
    relacionamentos := [{ tipo := "propriedade_de", entidade := "python",
                          descricao := "criador de python" }],
    conceito := some "python", categoria := none,
    contexto := { certeza := "ALTA", fonte := "api" } }

/-- The fact translated from `entradaPropriedadeJava`. -/
def fatoPropriedadeJava : Fato :=
  { tipo := "propriedade", chave := "criador", entidade := "geral", valor := "Gosling",
    relacionamentos := [{ tipo := "propriedade_de", entidade := "java",
                          descricao := "criador de java" }],
    conceito := some "java", categoria := none,
    contexto := { certeza := "ALTA", fonte := "api" } }

/-- Witness for C8 at the two concrete concept-property entries. -/
theorem dedup_lote_ignora_conceito_witness :
    processarEntrada "55" entradaPropriedadePython = some fatoPropriedadePython ∧
    processarEntrada "55" entradaPropriedadeJava = some fatoPropriedadeJava ∧
    (fatoPropriedadePython.entidade = "geral" ∧ fatoPropriedadeJava.entidade = "geral" ∧
     fatoPropriedadePython.chave = fatoPropriedadeJava.chave ∧
     traduzirParaModeloDados
         { armazenar := true, entradas := [entradaPropriedadePython, entradaPropriedadeJava] }
         "55" = [fatoPropriedadePython] ∧
     (saveFact (saveFact [] fatoPropriedadePython).1 fatoPropriedadeJava).1.length = 2) :=
  ⟨by decide, by decide,
   dedup_lote_ignora_conceito "55" entradaPropriedadePython entradaPropriedadeJava
     { tipo := "CONCEITO", valor := "python", categoria := "" }
     { tipo := "CONCEITO", valor := "java", categoria := "" }
     { tipo := "criador", valor := "Guido" } { tipo := "criador", valor := "Gosling" }
     fatoPropriedadePython fatoPropriedadeJava
     (by decide) (by decide) (by decide) (by decide) (by decide) (by decide)
     (by decide) (by decide) (by decide) (by decide) (by decide) (by decide)
     (by decide) (by decide) (by decide)⟩

/-! ## Claim C5: the keyword-overlap cache lookup

The claim fails only at an empty keyword list: the threshold is then zero,
so the claimed rule would return the first stored response, but the
candidate query of the source matches no document for an empty keyword
list, and the lookup always misses. For a nonempty keyword list the
claimed rule is exact, and the two threshold examples of the claim hold. -/

theorem atinge_implica_intersecta (search : List String) (minK : Nat) (hmin : 1 ≤ minK)
    (r : Resposta) (h : atingeMinimo search minK r = true) :
    intersectaPalavras search r = true := by
  unfold atingeMinimo at h
  rw [decide_eq_true_eq] at h
  unfold contagemCorrespondencias at h
  have hpos : 0 < (r.palavras_chave.filter (fun kw => search.contains kw)).length := by omega
  obtain ⟨kw, hkw⟩ := List.exists_mem_of_length_pos hpos
  unfold intersectaPalavras
  rw [List.any_eq_true]
  exact ⟨kw, List.mem_of_mem_filter hkw, List.of_mem_filter hkw⟩

theorem minimo_positivo (n : Nat) (h : 1 ≤ n) : 1 ≤ minimoCorrespondencias n := by
  unfold minimoCorrespondencias
  omega

/-- C5 (amended): for a nonempty keyword list, `findResponseByKeywords`
returns the first stored response with at least the minimum number of
matching keywords, in collection order; the cached entry on (nome, usuario,
cadastro) is hit by (nome, usuario, endereco) and missed by (nome,
endereco). -/
theorem busca_cache_por_limiar (colecao : List Resposta) (keywords : List String)
    (hnv : keywords ≠ []) :
    (findResponseByKeywords colecao keywords =
      colecao.find?
        (atingeMinimo (keywords.take 10) (minimoCorrespondencias (keywords.take 10).length))) ∧
    findResponseByKeywords
        [{ palavras_chave := ["nome", "usuario", "cadastro"], resposta := "resposta guardada",
           classificacao := "global" }] ["nome", "usuario", "endereco"] =
      some { palavras_chave := ["nome", "usuario", "cadastro"], resposta := "resposta guardada",
             classificacao := "global" } ∧
    findResponseByKeywords
        [{ palavras_chave := ["nome", "usuario", "cadastro"], resposta := "resposta guardada",
           classificacao := "global" }] ["nome", "endereco"] = none := by
  refine ⟨?_, by decide, by decide⟩
  have hmin : 1 ≤ minimoCorrespondencias (keywords.take 10).length := by
    apply minimo_positivo
    have : keywords.length ≠ 0 := fun h => hnv (List.length_eq_zero.mp h)
    rw [List.length_take]
    omega
  unfold findResponseByKeywords
  dsimp only []
  rw [List.filter_filter]
  have hpt : ∀ r ∈ colecao,
      (atingeMinimo (keywords.take 10) (minimoCorrespondencias (keywords.take 10).length) r &&
        intersectaPalavras (keywords.take 10) r) =
      atingeMinimo (keywords.take 10) (minimoCorrespondencias (keywords.take 10).length) r := by
    intro r _
    cases hq : atingeMinimo (keywords.take 10)
        (minimoCorrespondencias (keywords.take 10).length) r
    · simp
    · simp [atinge_implica_intersecta _ _ hmin r hq]
  rw [List.filter_congr hpt, List.filter_head?]

/-- Witness for the amended C5 at a concrete store and keyword list. -/
theorem busca_cache_por_limiar_witness :
    (["nome", "usuario", "endereco"] : List String) ≠ [] ∧
    findResponseByKeywords
        [{ palavras_chave := ["nome", "usuario", "cadastro"], resposta := "resposta guardada",
           classificacao := "global" }] ["nome", "usuario", "endereco"] =
      List.find?
        (atingeMinimo (["nome", "usuario", "endereco"].take 10)
          (minimoCorrespondencias (["nome", "usuario", "endereco"].take 10).length))
        [{ palavras_chave := ["nome", "usuario", "cadastro"], resposta := "resposta guardada",
           classificacao := "global" }] :=
  ⟨by decide,
   (busca_cache_por_limiar
     [{ palavras_chave := ["nome", "usuario", "cadastro"], resposta := "resposta guardada",
        classificacao := "global" }] ["nome", "usuario", "endereco"] (by decide)).1⟩

/-- Counterexample to C5 as stated: with an empty keyword list the claimed
rule (first response with at least `minMatches = 0` common keywords) would
return the stored response, but the lookup misses. -/
theorem busca_cache_vazia_contraexemplo :
    minimoCorrespondencias (([] : List String).take 10).length = 0 ∧
    findResponseByKeywords
        [{ palavras_chave := ["nome", "usuario", "cadastro"], resposta := "resposta guardada",
           classificacao := "global" }] [] = none ∧
    List.find?
        (atingeMinimo (([] : List String).take 10)
          (minimoCorrespondencias (([] : List String).take 10).length))
        [{ palavras_chave := ["nome", "usuario", "cadastro"], resposta := "resposta guardada",
           classificacao := "global" }] ≠ none := by
  decide

/-! ## Orchestrator lemmas and claims C3, C6 and C4 -/

/-- An empty store, used by concrete orchestrator scenarios. -/
def bancoVazio : Banco :=
  { responses := [], facts := [], entities := [] }

/-- A regex oracle with no captures, used by concrete scenarios. -/
def oraculoSemCapturas : RegexOraculo :=
  { terceiro := none, definicao := none, propriedade := none, propriedadeSimples := none }

theorem processarCom_sem_aprender (banco : Banco) (senderId : String)
    (openaiResult : Option DadosOpenAI) (oraculo : RegexOraculo) :
    (processarComOpenAI banco false senderId openaiResult oraculo).1 = banco ∧
    ∀ data, openaiResult = some data →
      respostaEspecifica banco.facts data oraculo senderId = none →
      (processarComOpenAI banco false senderId openaiResult oraculo).2 = data.resposta := by
  unfold processarComOpenAI
  cases openaiResult with
  | none => exact ⟨rfl, fun data hd => absurd hd (by simp)⟩
  | some data =>
    dsimp only []
    rw [if_neg (by simp)]
    constructor
    · split
      · rfl
      · rw [if_neg (by simp)]
    · intro data' hd hesp
      have hdd : data = data' := by injection hd
      subst hdd
      split
      · rename_i texto hcontra
        rw [hesp] at hcontra
        exact absurd hcontra (by simp)
      · rw [if_neg (by simp)]

theorem processarCom_aprender (banco : Banco) (senderId : String) (data : DadosOpenAI)
    (oraculo : RegexOraculo) :
    processarComOpenAI banco true senderId (some data) oraculo =
      ({ banco with
         responses := (saveResponse banco.responses
           { palavras_chave := data.palavras_chave, resposta := data.resposta,
             classificacao := data.classificacao }).1,
         facts := (traduzirParaModeloDados data.conhecimento senderId).foldl
           (fun colecao fato => (saveFact colecao fato).1) banco.facts },
       "Aprendizado concluído com sucesso. " ++
         toString (traduzirParaModeloDados data.conhecimento senderId).length ++
         " fatos foram armazenados.") := rfl

/-- C3: processing a message that does not start with the learning prefix
performs no store writes (the resulting store equals the initial store, so
no response, fact or entity is inserted or updated), and when the cache
misses, the classifier succeeds and the specific-query path declines, the
reply is the classifier answer text. -/
theorem sem_aprender_sem_escrita (banco : Banco) (messageText senderId : String)
    (openaiResult : Option DadosOpenAI) (oraculo : RegexOraculo)
    (h : comecaCom messageText "/aprender " = false) :
    (processMessage banco messageText senderId openaiResult oraculo).1 = banco ∧
    ∀ data, openaiResult = some data →
      findResponseByKeywords banco.responses (extractKeywords messageText 10) = none →
      respostaEspecifica banco.facts data oraculo senderId = none →
      (processMessage banco messageText senderId openaiResult oraculo).2 = data.resposta := by
  have hcom := processarCom_sem_aprender banco senderId openaiResult oraculo
  unfold processMessage
  dsimp only []
  simp only [h, Bool.false_eq_true, if_false]
  constructor
  · split
    · rfl
    · exact hcom.1
  · intro data hdata hfind hesp
    split
    · rename_i resp hr
      rw [hfind] at hr
      exact absurd hr (by simp)
    · exact hcom.2 data hdata hesp

/-- Concrete non-learning scenario for the C3 witness: empty store, a
statement (not a question), classifier succeeds. -/
def dadosAfirmacao : DadosOpenAI :=
  { palavras_chave := ["java", "linguagem"], resposta := "Entendido.", classificacao := "global",
    analise_taxonomica :=
      { tipo_interacao := "informativa", sujeito_principal := "CONCEITO",
        categoria_conhecimento := "DEFINIÇÃO", contexto_aplicacao := "GLOBAL",
        nivel_certeza := "MÉDIA" },
    conhecimento := { armazenar := false, entradas := [] } }

/-- Witness for C3 at a concrete statement message. -/
theorem sem_aprender_sem_escrita_witness :
    comecaCom "Java é uma linguagem" "/aprender " = false ∧
    (processMessage bancoVazio "Java é uma linguagem" "5511" (some dadosAfirmacao)
        oraculoSemCapturas).1 = bancoVazio ∧
    (processMessage bancoVazio "Java é uma linguagem" "5511" (some dadosAfirmacao)
        oraculoSemCapturas).2 = dadosAfirmacao.resposta :=
  ⟨by decide,
   (sem_aprender_sem_escrita bancoVazio "Java é uma linguagem" "5511" (some dadosAfirmacao)
     oraculoSemCapturas (by decide)).1,
   (sem_aprender_sem_escrita bancoVazio "Java é uma linguagem" "5511" (some dadosAfirmacao)
     oraculoSemCapturas (by decide)).2 dadosAfirmacao rfl (by decide) (by decide)⟩

/-- C6: for a non-learning message with a qualifying cache hit, the cached
answer text is the reply, the store is untouched, and the result does not
depend on the classifier result or on the query-analyzer captures: the
classifier is never consulted and no query analysis happens. -/
theorem cache_hit_dispensa_classificador (banco : Banco) (messageText senderId : String)
    (o1 o2 : Option DadosOpenAI) (or1 or2 : RegexOraculo) (r : Resposta)
    (h : comecaCom messageText "/aprender " = false)
    (hfind : findResponseByKeywords banco.responses (extractKeywords messageText 10) = some r) :
    processMessage banco messageText senderId o1 or1 = (banco, r.resposta) ∧
    processMessage banco messageText senderId o1 or1 =
      processMessage banco messageText senderId o2 or2 := by
  have chave : ∀ (o : Option DadosOpenAI) (oraculo : RegexOraculo),
      processMessage banco messageText senderId o oraculo = (banco, r.resposta) := by
    intro o oraculo
    unfold processMessage
    dsimp only []
    simp only [h, Bool.false_eq_true, if_false]
    rw [hfind]
  exact ⟨chave o1 or1, by rw [chave o1 or1, chave o2 or2]⟩

/-- A cached response hit by the witness message of C6. -/
def respostaCacheada : Resposta :=
  { palavras_chave := ["nome", "usuario", "cadastro"], resposta := "Resposta do cache.",
    classificacao := "global" }

/-- A second, different classifier result used to witness independence. -/
def dadosAlternativos : DadosOpenAI :=
  { palavras_chave := ["outra"], resposta := "Outra resposta.", classificacao := "pessoal",
    analise_taxonomica :=
      { tipo_interacao := "pergunta", sujeito_principal := "USUÁRIO",
        categoria_conhecimento := "IDENTIDADE", contexto_aplicacao := "PESSOAL",
        nivel_certeza := "ALTA" },
    conhecimento := { armazenar := false, entradas := [] } }

/-- Witness for C6: a concrete cache hit answers from the cache for two
different classifier results. -/
theorem cache_hit_dispensa_classificador_witness :
    comecaCom "nome do usuario para cadastro" "/aprender " = false ∧
    findResponseByKeywords [respostaCacheada]
        (extractKeywords "nome do usuario para cadastro" 10) = some respostaCacheada ∧
    processMessage { responses := [respostaCacheada], facts := [], entities := [] }
        "nome do usuario para cadastro" "5511" (some dadosAlternativos) oraculoSemCapturas =
      ({ responses := [respostaCacheada], facts := [], entities := [] },
       respostaCacheada.resposta) ∧
    processMessage { responses := [respostaCacheada], facts := [], entities := [] }
        "nome do usuario para cadastro" "5511" (some dadosAlternativos) oraculoSemCapturas =
      processMessage { responses := [respostaCacheada], facts := [], entities := [] }
        "nome do usuario para cadastro" "5511" none
        { terceiro := some "alguem", definicao := some "algo",
          propriedade := none, propriedadeSimples := none } :=
  ⟨by decide, by decide,
   (cache_hit_dispensa_classificador
     { responses := [respostaCacheada], facts := [], entities := [] }
     "nome do usuario para cadastro" "5511" (some dadosAlternativos) none oraculoSemCapturas
     { terceiro := some "alguem", definicao := some "algo",
       propriedade := none, propriedadeSimples := none }
     respostaCacheada (by decide) (by decide)).1,
   (cache_hit_dispensa_classificador
     { responses := [respostaCacheada], facts := [], entities := [] }
     "nome do usuario para cadastro" "5511" (some dadosAlternativos) none oraculoSemCapturas
     { terceiro := some "alguem", definicao := some "algo",
       propriedade := none, propriedadeSimples := none }
     respostaCacheada (by decide) (by decide)).2⟩

/-! ## Claim C4: per-fact save failures during learning

The claim fails in one respect: the confirmation reply always reports the
number of translated facts, not the number of facts whose save succeeded,
so a fact whose save fails is still counted. The rest holds: a failed save
leaves the store step unchanged, does not stop the remaining saves (every
fact is attempted in order by the fold) and does not block the reply. -/

/-- C4 (amended): on a learning command with a successful classification,
the reply is always sent and reports the number of translated facts, every
translated fact is attempted in order against the store regardless of
earlier failures, and the generic answer is saved to the response cache. -/
theorem aprendizado_relata_total (banco : Banco) (messageText senderId : String)
    (data : DadosOpenAI) (oraculo : RegexOraculo)
    (h : comecaCom messageText "/aprender " = true) :
    (processMessage banco messageText senderId (some data) oraculo).2 =
      "Aprendizado concluído com sucesso. " ++
        toString (traduzirParaModeloDados data.conhecimento senderId).length ++
        " fatos foram armazenados." ∧
    (processMessage banco messageText senderId (some data) oraculo).1.facts =
      (traduzirParaModeloDados data.conhecimento senderId).foldl
        (fun colecao fato => (saveFact colecao fato).1) banco.facts ∧
    (processMessage banco messageText senderId (some data) oraculo).1.responses =
      (saveResponse banco.responses
        { palavras_chave := data.palavras_chave, resposta := data.resposta,
          classificacao := data.classificacao }).1 := by
  unfold processMessage
  dsimp only []
  simp only [h, if_true]
  split
  · rw [processarCom_aprender]
    exact ⟨rfl, rfl, rfl⟩
  · rw [processarCom_aprender]
    exact ⟨rfl, rfl, rfl⟩

/-- A learning-command classification carrying one storable entry and one
entry whose predicate type is whitespace; the latter translates to a fact
with an empty key, which `saveFact` rejects. -/
def dadosComFalha : DadosOpenAI :=
  { palavras_chave := ["python"], resposta := "Armazenei esta informação.",
    classificacao := "global",
    analise_taxonomica :=
      { tipo_interacao := "informativa", sujeito_principal := "CONCEITO",
        categoria_conhecimento := "DEFINIÇÃO", contexto_aplicacao := "GLOBAL",
        nivel_certeza := "ALTA" },
    conhecimento :=
      { armazenar := true,
        entradas :=
          [{ tipo := "fato_definicao",
             sujeito := some { tipo := "CONCEITO", valor := "python", categoria := "" },
             predicado := some { tipo := "significado", valor := "uma linguagem" },
             objeto := none,
             contexto := some { certeza := "ALTA", fonte := "" } },
           { tipo := "fato_relacao",
             sujeito := some { tipo := "TERCEIRO", valor := "ana", categoria := "" },
             predicado := some { tipo := "  ", valor := "x" },
             objeto := some { tipo := "CONCEITO", valor := "bob" },
             contexto := some { certeza := "ALTA", fonte := "" } }] } }

/-- Counterexample to C4 as stated: of the two translated facts only one is
stored (the second save fails), yet the confirmation reply counts two. The
failed save does not block the reply. -/
theorem aprendizado_conta_falhas_contraexemplo :
    (traduzirParaModeloDados dadosComFalha.conhecimento "5511").length = 2 ∧
    (processMessage bancoVazio "/aprender fatos de teste" "5511" (some dadosComFalha)
        oraculoSemCapturas).1.facts.length = 1 ∧
    (processMessage bancoVazio "/aprender fatos de teste" "5511" (some dadosComFalha)
        oraculoSemCapturas).2 =
      "Aprendizado concluído com sucesso. 2 fatos foram armazenados." := by
  decide

/-- Witness for the amended C4 at the same concrete scenario. -/
theorem aprendizado_relata_total_witness :
    comecaCom "/aprender fatos de teste" "/aprender " = true ∧
    (processMessage bancoVazio "/aprender fatos de teste" "5511" (some dadosComFalha)
        oraculoSemCapturas).2 =
      "Aprendizado concluído com sucesso. " ++
        toString (traduzirParaModeloDados dadosComFalha.conhecimento "5511").length ++
        " fatos foram armazenados." ∧
    (processMessage bancoVazio "/aprender fatos de teste" "5511" (some dadosComFalha)
        oraculoSemCapturas).1.facts =
      (traduzirParaModeloDados dadosComFalha.conhecimento "5511").foldl
        (fun colecao fato => (saveFact colecao fato).1) bancoVazio.facts :=
  ⟨by decide,
   (aprendizado_relata_total bancoVazio "/aprender fatos de teste" "5511" dadosComFalha
     oraculoSemCapturas (by decide)).1,
   (aprendizado_relata_total bancoVazio "/aprender fatos de teste" "5511" dadosComFalha
     oraculoSemCapturas (by decide)).2.1⟩

/-! ## Claim C7: learning commands force storage and ALTA certainty -/

theorem fallback_contexto (conteudo senderId : String) :
    (fallbackEntrada conteudo senderId).contexto =
      some { certeza := "ALTA", fonte := "declaração_direta" } := rfl

theorem forcarAlta_contexto (entrada : Entrada) :
    ((forcarAlta entrada).contexto.map EntradaContexto.certeza) = some "ALTA" := rfl

/-- C7: for every message starting with the learning prefix, a successful
classifier-adapter result has storage forced on and every knowledge entry
with certainty ALTA; when the model returned no entries the deterministic
fallback builds exactly one entry, and when it returned entries each one is
kept (same count) with its certainty overwritten to ALTA. -/
theorem comando_aprender_forca_alta (userMessage senderId : String)
    (jsonData saida : DadosJson)
    (hcmd : comecaCom userMessage "/aprender " = true)
    (hproc : processarRespostaOpenAI userMessage senderId jsonData = some saida) :
    ∃ c : Conhecimento, saida.conhecimento = some c ∧ c.armazenar = true ∧
      (∀ e ∈ c.entradas, (e.contexto.map EntradaContexto.certeza) = some "ALTA") ∧
      ((jsonData.conhecimento = none ∨
          ∃ k, jsonData.conhecimento = some k ∧ k.entradas = []) →
        c.entradas.length = 1) ∧
      (∀ k, jsonData.conhecimento = some k → k.entradas ≠ [] →
        c.entradas.length = k.entradas.length) := by
  unfold processarRespostaOpenAI at hproc
  split at hproc
  · exact absurd hproc (by simp)
  · dsimp only [] at hproc
    simp only [hcmd, if_true] at hproc
    cases hk : jsonData.conhecimento with
    | some k =>
      rw [hk] at hproc
      dsimp only [] at hproc
      by_cases hvazio : k.entradas = []
      · rw [if_pos hvazio] at hproc
        have hsaida := Option.some.inj hproc
        subst hsaida
        refine ⟨_, rfl, rfl, ?_, fun _ => rfl, ?_⟩
        · intro e he
          rcases List.mem_singleton.mp he with rfl
          rfl
        · intro k' hk' hne
          have : k = k' := Option.some.inj hk'
          subst this
          exact absurd hvazio hne
      · rw [if_neg hvazio] at hproc
        have hsaida := Option.some.inj hproc
        subst hsaida
        refine ⟨_, rfl, rfl, ?_, ?_, ?_⟩
        · intro e he
          rcases List.mem_map.mp he with ⟨e', -, rfl⟩
          rfl
        · intro habs
          rcases habs with habs | ⟨k', hk', hke⟩
          · exact absurd habs (by simp)
          · have : k = k' := Option.some.inj hk'
            subst this
            exact absurd hke hvazio
        · intro k' hk' _
          have : k = k' := Option.some.inj hk'
          subst this
          simp
    | none =>
      rw [hk] at hproc
      dsimp only [] at hproc
      have hsaida := Option.some.inj hproc
      subst hsaida
      refine ⟨_, rfl, rfl, ?_, fun _ => rfl, ?_⟩
      · intro e he
        rcases List.mem_singleton.mp he with rfl
        rfl
      · intro k' hk' _
        exact absurd hk' (by simp)

/-- The validated classifier reply used by the C7 witness: required fields
present, no knowledge block returned. -/
def respostaSemConhecimento : DadosJson :=
  { palavras_chave := some ["python"], resposta := some "ok", classificacao := some "global",
    analise_taxonomica := some
      { tipo_interacao := "informativa", sujeito_principal := "CONCEITO",
        categoria_conhecimento := "DEFINIÇÃO", contexto_aplicacao := "GLOBAL",
        nivel_certeza := "ALTA" },
    conhecimento := none }

/-- The adapter output for the C7 witness, with the fallback entry built
from the command text. -/
def respostaComFallback : DadosJson :=
  { respostaSemConhecimento with
    conhecimento := some
      { armazenar := true,
        entradas :=
          [{ tipo := "fato_definicao",
             sujeito := some { tipo := "CONCEITO", valor := "python", categoria := "" },
             predicado := some { tipo := "definicao", valor := "uma linguagem" },
             objeto := none,
             contexto := some { certeza := "ALTA", fonte := "declaração_direta" } }] } }

/-- Witness for C7 at a concrete learning command without returned
entries. -/
theorem comando_aprender_forca_alta_witness :
    comecaCom "/aprender python é uma linguagem" "/aprender " = true ∧
    processarRespostaOpenAI "/aprender python é uma linguagem" "5511"
        respostaSemConhecimento = some respostaComFallback ∧
    ∃ c : Conhecimento, respostaComFallback.conhecimento = some c ∧ c.armazenar = true ∧
      (∀ e ∈ c.entradas, (e.contexto.map EntradaContexto.certeza) = some "ALTA") ∧
      ((respostaSemConhecimento.conhecimento = none ∨
          ∃ k, respostaSemConhecimento.conhecimento = some k ∧ k.entradas = []) →
        c.entradas.length = 1) ∧
      (∀ k, respostaSemConhecimento.conhecimento = some k → k.entradas ≠ [] →
        c.entradas.length = k.entradas.length) :=
  ⟨by decide, by decide,
   comando_aprender_forca_alta "/aprender python é uma linguagem" "5511"
     respostaSemConhecimento respostaComFallback (by decide) (by decide)⟩

/-! ## Claim C10: the keyword extractor

The claim fails in two respects. First, the tokens are enumerated from a
JS object, whose own-property order puts canonical array-index keys
(all-digit tokens) first in ascending numeric order, before the other keys
in first-seen order; a frequency tie between a numeric and a non-numeric
token is therefore broken by that enumeration order, not by first-seen
order. Second, the frequency table is a plain object literal, so the
count read traverses the prototype chain: the surviving token
`constructor` first reads the inherited truthy
`Object.prototype.constructor`, its count becomes a non-numeric string,
every comparison against it is NaN — a tie for `SortCompare` — and the
output is not ordered by descending frequency (`constructor` is the only
`Object.prototype` member name a token can equal, because the other names
contain upper-case letters or underscores that the normalization removes:
`token_herdado_eh_constructor`). The remaining properties hold: empty
input gives an empty list, at most `maxKeywords` distinct surviving
tokens are returned, and — provided the token `constructor` does not
survive, so that every count is numeric and the comparator is a
consistent comparison function — they are ordered by descending frequency
with ties broken by the object enumeration order (the sort of the source
is guaranteed stable). -/

theorem perm_inserirOrdenado (freq : List (String × ContagemJs)) (w : String) (l : List String) :
    List.Perm (inserirOrdenado freq w l) (w :: l) := by
  induction l with
  | nil => rfl
  | cons x resto ih =>
    simp only [inserirOrdenado]
    split
    · exact (ih.cons x).trans (List.Perm.swap w x resto)
    · rfl

theorem perm_ordenarPorFrequencia (freq : List (String × ContagemJs)) (l : List String) :
    List.Perm (ordenarPorFrequencia freq l) l := by
  induction l with
  | nil => rfl
  | cons x resto ih =>
    simp only [ordenarPorFrequencia]
    exact (perm_inserirOrdenado freq x _).trans (ih.cons x)

theorem perm_inserirAscendente (w : String) (l : List String) :
    List.Perm (inserirAscendente w l) (w :: l) := by
  induction l with
  | nil => rfl
  | cons x resto ih =>
    simp only [inserirAscendente]
    split
    · rfl
    · exact (ih.cons x).trans (List.Perm.swap w x resto)

theorem perm_ordenarIndices (l : List String) : List.Perm (ordenarIndices l) l := by
  induction l with
  | nil => rfl
  | cons x resto ih =>
    simp only [ordenarIndices]
    exact (perm_inserirAscendente x _).trans (ih.cons x)

/-- ASCII lower-casing never produces an ASCII upper-case letter. -/
theorem toLower_sem_maiuscula (d : Char) : ehMaiusculaAscii (Char.toLower d) = false := by
  unfold Char.toLower
  dsimp only []
  split
  · rename_i h
    have hv : (d.toNat + 32).isValidChar := Or.inl (by omega)
    have hval : (Char.ofNat (d.toNat + 32)).toNat = d.toNat + 32 := by
      unfold Char.ofNat
      rw [dif_pos hv]
      exact rfl
    unfold ehMaiusculaAscii
    rw [hval]
    have h2 : ¬(d.toNat + 32 ≤ 90) := by omega
    simp [h2]
  · rename_i h
    by_cases h1 : 65 ≤ d.toNat
    · have h2 : ¬(d.toNat ≤ 90) := fun h2 => h ⟨h1, h2⟩
      simp [ehMaiusculaAscii, h2]
    · simp [ehMaiusculaAscii, h1]

/-- Every character of every part produced by the splitter comes from the
input (or from the accumulator of the scan). -/
theorem mem_separarAux (sep : List Char) (fuel : Nat) :
    ∀ (l atual : List Char), ∀ parte ∈ separarAux sep fuel l atual,
      ∀ c ∈ parte, c ∈ l ∨ c ∈ atual := by
  induction fuel with
  | zero =>
    intro l atual parte hparte c hc
    simp only [separarAux, List.mem_singleton] at hparte
    subst hparte
    rcases List.mem_append.mp hc with h1 | h2
    · exact Or.inr (List.mem_reverse.mp h1)
    · exact Or.inl h2
  | succ fuel ih =>
    intro l atual parte hparte c hc
    cases l with
    | nil =>
      simp only [separarAux, List.mem_singleton] at hparte
      subst hparte
      exact Or.inr (List.mem_reverse.mp hc)
    | cons d resto =>
      simp only [separarAux] at hparte
      split at hparte
      · rcases List.mem_cons.mp hparte with h1 | hp2
        · subst h1
          exact Or.inr (List.mem_reverse.mp hc)
        · rcases ih _ _ parte hp2 c hc with h1 | h2
          · exact Or.inl (List.mem_of_mem_drop h1)
          · exact absurd h2 (List.not_mem_nil c)
      · rcases ih _ _ parte hparte c hc with h1 | h2
        · exact Or.inl (List.mem_cons.mpr (Or.inr h1))
        · rcases List.mem_cons.mp h2 with h3 | h3
          · subst h3
            exact Or.inl (List.mem_cons.mpr (Or.inl rfl))
          · exact Or.inr h3

/-- Every character of the whitespace-collapsed list comes from the input,
except for the space that replaces a run. -/
theorem mem_colapsarEspacosAux (l : List Char) :
    ∀ (flag : Bool), ∀ c ∈ colapsarEspacosAux flag l, c ∈ l ∨ c = ' ' := by
  induction l with
  | nil => intro flag c hc; simp [colapsarEspacosAux] at hc
  | cons d resto ih =>
    intro flag c hc
    cases flag with
    | true =>
      simp only [colapsarEspacosAux] at hc
      split at hc
      · rcases ih true c hc with h1 | h2
        · exact Or.inl (List.mem_cons.mpr (Or.inr h1))
        · exact Or.inr h2
      · rcases List.mem_cons.mp hc with h3 | h3
        · subst h3
          exact Or.inl (List.mem_cons.mpr (Or.inl rfl))
        · rcases ih false c h3 with h1 | h2
          · exact Or.inl (List.mem_cons.mpr (Or.inr h1))
          · exact Or.inr h2
    | false =>
      simp only [colapsarEspacosAux] at hc
      split at hc
      · rcases List.mem_cons.mp hc with h3 | h3
        · exact Or.inr h3
        · rcases ih true c h3 with h1 | h2
          · exact Or.inl (List.mem_cons.mpr (Or.inr h1))
          · exact Or.inr h2
      · rcases List.mem_cons.mp hc with h3 | h3
        · subst h3
          exact Or.inl (List.mem_cons.mpr (Or.inl rfl))
        · rcases ih false c h3 with h1 | h2
          · exact Or.inl (List.mem_cons.mpr (Or.inr h1))
          · exact Or.inr h2

/-- A surviving token contains no ASCII upper-case letter — the text was
lower-cased — and no underscore — the punctuation strip removes it. -/
theorem caracteres_de_token (text w : String) (hw : w ∈ tokensFiltrados text)
    (c : Char) (hc : c ∈ w.toList) :
    ehMaiusculaAscii c = false ∧ c ≠ '_' := by
  have hw1 : w ∈ separar (normalizarTexto text) " " := (List.mem_filter.mp hw).1
  rw [show separar (normalizarTexto text) " " =
      (separarAux [' '] ((normalizarTexto text).toList.length + 1)
        (normalizarTexto text).toList []).map String.mk from rfl] at hw1
  rcases List.mem_map.mp hw1 with ⟨parte, hparte, hmk⟩
  subst hmk
  have hc' : c ∈ parte := hc
  have hc1 : c ∈ (normalizarTexto text).toList ∨ c ∈ ([] : List Char) :=
    mem_separarAux [' '] _ _ _ parte hparte c hc'
  rcases hc1 with hc1 | hvazio
  swap
  · exact absurd hvazio (List.not_mem_nil c)
  have hc2 : c ∈ colapsarEspacosAux false
      (((minusculas text).toList).filter (fun d => !(pontuacaoRemovida.contains d))) := hc1
  rcases mem_colapsarEspacosAux _ false c hc2 with hc3 | hespaco
  · have hfil := List.mem_filter.mp hc3
    constructor
    · have hmem : c ∈ (text.toList.map Char.toLower) := hfil.1
      rcases List.mem_map.mp hmem with ⟨d, _, hd⟩
      rw [← hd]
      exact toLower_sem_maiuscula d
    · intro hsub
      subst hsub
      have hpont : pontuacaoRemovida.contains '_' = true := by decide
      rw [hpont] at hfil
      exact absurd hfil.2 (by decide)
  · subst hespaco
    exact ⟨by decide, by decide⟩

/-- The only `Object.prototype` member name a surviving token can equal is
`constructor`: every other name contains an upper-case letter or an
underscore, which no token has. -/
theorem token_herdado_eh_constructor (text w : String) (hw : w ∈ tokensFiltrados text)
    (hherd : nomesHerdados.contains w = true) : w = "constructor" := by
  have hmem : w ∈ nomesHerdados := by simpa using hherd
  have hcar := caracteres_de_token text w hw
  simp only [nomesHerdados, List.mem_cons, List.not_mem_nil, or_false] at hmem
  rcases hmem with h | h | h | h | h | h | h | h | h | h | h | h
  · exact h
  all_goals subst h
  · exact absurd ((hcar 'O' (by decide)).1) (by decide)
  · exact absurd ((hcar 'P' (by decide)).1) (by decide)
  · exact absurd ((hcar 'I' (by decide)).1) (by decide)
  · exact absurd ((hcar 'L' (by decide)).1) (by decide)
  · exact absurd ((hcar 'S' (by decide)).1) (by decide)
  · exact absurd ((hcar 'O' (by decide)).1) (by decide)
  · exact absurd ((hcar '_' (by decide)).2) (by simp)
  · exact absurd ((hcar '_' (by decide)).2) (by simp)
  · exact absurd ((hcar '_' (by decide)).2) (by simp)
  · exact absurd ((hcar '_' (by decide)).2) (by simp)
  · exact absurd ((hcar '_' (by decide)).2) (by simp)

/-- In a table free of poisoned counts, every read yields the numeric
frequency. -/
theorem contagemDe_numerica (freq : List (String × ContagemJs))
    (hnum : semContagemTexto freq) (w : String) :
    contagemDe freq w = ContagemJs.numero (frequenciaDe freq w) := by
  unfold frequenciaDe
  cases hc : contagemDe freq w with
  | numero n => rfl
  | texto =>
    exfalso
    unfold contagemDe at hc
    cases hf : freq.find? (fun p => p.1 == w) with
    | none => rw [hf] at hc; exact ContagemJs.noConfusion hc
    | some p =>
      rw [hf] at hc
      simp only [Option.map_some', Option.getD_some] at hc
      exact (hnum p (List.mem_of_find?_eq_some hf)) hc

/-- In a table free of poisoned counts, the comparator condition of the
stable sort is the numeric frequency comparison. -/
theorem condicao_comparacao (freq : List (String × ContagemJs))
    (hnum : semContagemTexto freq) (w x : String) :
    decide (0 < comparacao freq w x) =
      decide (frequenciaDe freq w < frequenciaDe freq x) := by
  unfold comparacao
  rw [contagemDe_numerica freq hnum w, contagemDe_numerica freq hnum x]
  show decide ((0 : Int) < (frequenciaDe freq x : Int) - (frequenciaDe freq w : Int)) =
    decide (frequenciaDe freq w < frequenciaDe freq x)
  rw [decide_eq_decide]
  omega

/-- A counting step on a word that names no `Object.prototype` member
preserves freedom from poisoned counts. -/
theorem semTexto_incrementar (acc : List (String × ContagemJs)) (w : String)
    (hw : nomesHerdados.contains w = false) (hacc : semContagemTexto acc) :
    semContagemTexto (incrementarContagem acc w) := by
  intro p hp
  unfold incrementarContagem at hp
  split at hp
  · rcases List.mem_map.mp hp with ⟨q, hq, hqp⟩
    subst hqp
    show (if (q.1 == w) = true then (q.1, avancarContagem q.2) else q).2 ≠ ContagemJs.texto
    split
    · cases hcq : q.2 with
      | numero n => simp [avancarContagem]
      | texto => exact absurd hcq (hacc q hq)
    · exact hacc q hq
  · split at hp
    · exact hacc p hp
    · split at hp
      · rename_i h3
        rw [hw] at h3
        exact absurd h3 (by decide)
      · rcases List.mem_append.mp hp with h1 | h2
        · exact hacc p h1
        · rw [List.mem_singleton] at h2
          subst h2
          simp

/-- When no counted word names an `Object.prototype` member, the whole
table is free of poisoned counts. -/
theorem semTexto_contarFrequencia (palavras : List String)
    (h : ∀ w ∈ palavras, nomesHerdados.contains w = false) :
    semContagemTexto (contarFrequencia palavras) := by
  suffices hs : ∀ (ws : List String) (acc : List (String × ContagemJs)),
      (∀ w ∈ ws, nomesHerdados.contains w = false) →
      semContagemTexto acc → semContagemTexto (ws.foldl incrementarContagem acc) by
    exact hs palavras [] h (fun p hp => absurd hp (List.not_mem_nil p))
  intro ws
  induction ws with
  | nil => intro acc _ hacc; exact hacc
  | cons w resto ih =>
    intro acc hws hacc
    rw [List.foldl_cons]
    exact ih _ (fun v hv => hws v (List.mem_cons.mpr (Or.inr hv)))
      (semTexto_incrementar acc w (hws w (List.mem_cons.mpr (Or.inl rfl))) hacc)

/-- A counting step leaves the key list unchanged or appends the new key,
and in the latter case the key was not present. -/
theorem chaves_incrementar (acc : List (String × ContagemJs)) (w : String) :
    (incrementarContagem acc w).map Prod.fst = acc.map Prod.fst ∨
      ((incrementarContagem acc w).map Prod.fst = acc.map Prod.fst ++ [w] ∧
        w ∉ acc.map Prod.fst) := by
  unfold incrementarContagem
  by_cases h1 : acc.any (fun p => p.1 == w) = true
  · rw [if_pos h1]
    left
    rw [List.map_map]
    apply List.map_congr_left
    intro p _
    show (if (p.1 == w) = true then (p.1, avancarContagem p.2) else p).1 = p.1
    split <;> rfl
  · rw [if_neg h1]
    have hnm : w ∉ acc.map Prod.fst := by
      intro hmem
      rcases List.mem_map.mp hmem with ⟨p, hp, hpw⟩
      apply h1
      rw [List.any_eq_true]
      exact ⟨p, hp, by rw [hpw]; exact beq_self_eq_true w⟩
    by_cases h2 : (w == "__proto__") = true
    · rw [if_pos h2]
      exact Or.inl rfl
    · rw [if_neg h2]
      by_cases h3 : nomesHerdados.contains w = true
      · rw [if_pos h3, List.map_append]
        exact Or.inr ⟨rfl, hnm⟩
      · rw [if_neg h3, List.map_append]
        exact Or.inr ⟨rfl, hnm⟩

theorem chaves_contarFrequencia_nodup (palavras : List String) :
    ((contarFrequencia palavras).map Prod.fst).Nodup := by
  suffices h : ∀ (ws : List String) (acc : List (String × ContagemJs)),
      (acc.map Prod.fst).Nodup →
      ((ws.foldl incrementarContagem acc).map Prod.fst).Nodup by
    exact h palavras [] (by simp)
  intro ws
  induction ws with
  | nil => intro acc hacc; exact hacc
  | cons w resto ih =>
    intro acc hacc
    rw [List.foldl_cons]
    apply ih
    rcases chaves_incrementar acc w with h1 | ⟨h2, hnm⟩
    · rw [h1]; exact hacc
    · rw [h2]
      apply List.Nodup.append hacc (by simp)
      intro x hx hx'
      rw [List.mem_singleton] at hx'
      subst hx'
      exact hnm hx

theorem chaves_contarFrequencia_mem (palavras : List String) (x : String)
    (hx : x ∈ (contarFrequencia palavras).map Prod.fst) : x ∈ palavras := by
  suffices h : ∀ (ws : List String) (acc : List (String × ContagemJs)),
      x ∈ ((ws.foldl incrementarContagem acc).map Prod.fst) →
      x ∈ acc.map Prod.fst ∨ x ∈ ws by
    rcases h palavras [] hx with hvazio | hm
    · simp at hvazio
    · exact hm
  intro ws
  induction ws with
  | nil => intro acc h; exact Or.inl h
  | cons w resto ih =>
    intro acc h
    rw [List.foldl_cons] at h
    rcases ih _ h with hacc | hresto
    · rcases chaves_incrementar acc w with h1 | ⟨h2, _⟩
      · rw [h1] at hacc
        exact Or.inl hacc
      · rw [h2] at hacc
        rcases List.mem_append.mp hacc with ha | hb
        · exact Or.inl ha
        · rw [List.mem_singleton] at hb
          exact Or.inr (List.mem_cons.mpr (Or.inl hb))
    · exact Or.inr (List.mem_cons.mpr (Or.inr hresto))

theorem pairwise_inserirOrdenado (freq : List (String × ContagemJs))
    (hnum : semContagemTexto freq) (w : String) (l : List String)
    (h : l.Pairwise (fun a b => frequenciaDe freq b ≤ frequenciaDe freq a)) :
    (inserirOrdenado freq w l).Pairwise
      (fun a b => frequenciaDe freq b ≤ frequenciaDe freq a) := by
  induction l with
  | nil => simp [inserirOrdenado]
  | cons x resto ih =>
    rcases List.pairwise_cons.mp h with ⟨hx, hresto⟩
    simp only [inserirOrdenado]
    rw [condicao_comparacao freq hnum w x]
    split
    · rename_i hlt
      rw [decide_eq_true_eq] at hlt
      refine List.pairwise_cons.mpr ⟨?_, ih hresto⟩
      intro y hy
      rcases List.mem_cons.mp ((perm_inserirOrdenado freq w resto).mem_iff.mp hy) with h1 | hy'
      · subst h1
        exact Nat.le_of_lt hlt
      · exact hx y hy'
    · rename_i hge
      have hle : frequenciaDe freq x ≤ frequenciaDe freq w := by
        rw [decide_eq_true_eq] at hge
        omega
      refine List.pairwise_cons.mpr ⟨?_, h⟩
      intro y hy
      rcases List.mem_cons.mp hy with h1 | hy'
      · subst h1
        exact hle
      · exact le_trans (hx y hy') hle

theorem pairwise_ordenarPorFrequencia (freq : List (String × ContagemJs))
    (hnum : semContagemTexto freq) (l : List String) :
    (ordenarPorFrequencia freq l).Pairwise
      (fun a b => frequenciaDe freq b ≤ frequenciaDe freq a) := by
  induction l with
  | nil => simp [ordenarPorFrequencia]
  | cons x resto ih =>
    simp only [ordenarPorFrequencia]
    exact pairwise_inserirOrdenado freq hnum x _ ih

theorem filter_inserirOrdenado (freq : List (String × ContagemJs))
    (hnum : semContagemTexto freq) (w : String) (n : Nat) (l : List String)
    (h : l.Pairwise (fun a b => frequenciaDe freq b ≤ frequenciaDe freq a)) :
    (inserirOrdenado freq w l).filter (fun x => frequenciaDe freq x == n) =
      if frequenciaDe freq w == n then
        w :: l.filter (fun x => frequenciaDe freq x == n)
      else l.filter (fun x => frequenciaDe freq x == n) := by
  induction l with
  | nil =>
    by_cases hw : frequenciaDe freq w = n
    · simp [inserirOrdenado, List.filter_cons, hw]
    · simp [inserirOrdenado, List.filter_cons, hw]
  | cons x resto ih =>
    rcases List.pairwise_cons.mp h with ⟨hx, hresto⟩
    simp only [inserirOrdenado]
    rw [condicao_comparacao freq hnum w x]
    split
    · rename_i hlt
      rw [decide_eq_true_eq] at hlt
      rw [List.filter_cons, ih hresto]
      by_cases hw : frequenciaDe freq w = n
      · have hxn : frequenciaDe freq x ≠ n := by omega
        simp [List.filter_cons, hw, hxn]
      · simp [List.filter_cons, hw]
    · by_cases hw : frequenciaDe freq w = n
      · simp [List.filter_cons, hw]
      · simp [List.filter_cons, hw]

theorem filter_ordenarPorFrequencia (freq : List (String × ContagemJs))
    (hnum : semContagemTexto freq) (n : Nat) (l : List String) :
    (ordenarPorFrequencia freq l).filter (fun x => frequenciaDe freq x == n) =
      l.filter (fun x => frequenciaDe freq x == n) := by
  induction l with
  | nil => rfl
  | cons x resto ih =>
    simp only [ordenarPorFrequencia]
    rw [filter_inserirOrdenado freq hnum x n _ (pairwise_ordenarPorFrequencia freq hnum resto),
      ih]
    by_cases hx : frequenciaDe freq x = n
    · simp [List.filter_cons, hx]
    · simp [List.filter_cons, hx]

theorem mem_ordemChavesObjeto (freq : List (String × ContagemJs)) (x : String)
    (hx : x ∈ ordemChavesObjeto freq) : x ∈ freq.map Prod.fst := by
  unfold ordemChavesObjeto at hx
  dsimp only [] at hx
  rcases List.mem_append.mp hx with h1 | h2
  · exact (List.mem_filter.mp ((perm_ordenarIndices _).mem_iff.mp h1)).1
  · exact (List.mem_filter.mp h2).1

theorem nodup_ordemChavesObjeto (freq : List (String × ContagemJs))
    (h : (freq.map Prod.fst).Nodup) : (ordemChavesObjeto freq).Nodup := by
  unfold ordemChavesObjeto
  dsimp only []
  apply List.Nodup.append
  · exact ((perm_ordenarIndices _).nodup_iff).mpr (h.filter _)
  · exact h.filter _
  · intro x hx hx'
    have h1 : ehIndiceDeArray x = true :=
      (List.mem_filter.mp ((perm_ordenarIndices _).mem_iff.mp hx)).2
    have h2 : (!ehIndiceDeArray x) = true := (List.mem_filter.mp hx').2
    rw [h1] at h2
    exact absurd h2 (by decide)

/-- C10 (amended): the extractor is a pure function; empty input yields an
empty sequence; the output has at most `maxKeywords` entries, is free of
duplicates, and consists only of surviving tokens (after lower-casing,
punctuation stripping, whitespace collapsing, splitting and the length and
stop-word filters). Provided the token `constructor` does not survive — the
only token whose count the frequency object poisons through its prototype
chain — the output is ordered by descending frequency, with ties broken by
the object-key enumeration order (array-index tokens first, ascending,
then first-seen order), which the last conjunct captures as stability:
within each frequency class the sorted order is the enumeration order. -/
theorem extractKeywords_propriedades :
    (∀ k, extractKeywords "" k = []) ∧
    (∀ text k, (extractKeywords text k).length ≤ k) ∧
    (∀ text k, (extractKeywords text k).Nodup) ∧
    (∀ text k, "constructor" ∉ tokensFiltrados text →
      (extractKeywords text k).Pairwise (fun a b =>
        frequenciaDe (contarFrequencia (tokensFiltrados text)) b ≤
          frequenciaDe (contarFrequencia (tokensFiltrados text)) a)) ∧
    (∀ text k w, w ∈ extractKeywords text k → w ∈ tokensFiltrados text) ∧
    (∀ text n, "constructor" ∉ tokensFiltrados text →
      (palavrasOrdenadas text).filter
          (fun w => frequenciaDe (contarFrequencia (tokensFiltrados text)) w == n) =
        (ordemChavesObjeto (contarFrequencia (tokensFiltrados text))).filter
          (fun w => frequenciaDe (contarFrequencia (tokensFiltrados text)) w == n)) := by
  have hsem : ∀ text, "constructor" ∉ tokensFiltrados text →
      semContagemTexto (contarFrequencia (tokensFiltrados text)) := by
    intro text hcon
    apply semTexto_contarFrequencia
    intro w hw
    cases hh : nomesHerdados.contains w with
    | false => rfl
    | true =>
      have hwc := token_herdado_eh_constructor text w hw hh
      subst hwc
      exact absurd hw hcon
  have hnodupOrd : ∀ text, (palavrasOrdenadas text).Nodup := by
    intro text
    unfold palavrasOrdenadas
    dsimp only []
    exact ((perm_ordenarPorFrequencia _ _).nodup_iff).mpr
      (nodup_ordemChavesObjeto _ (chaves_contarFrequencia_nodup _))
  refine ⟨fun k => rfl, ?_, ?_, ?_, ?_, ?_⟩
  · intro text k
    unfold extractKeywords
    split
    · simp
    · rw [List.length_take]
      omega
  · intro text k
    unfold extractKeywords
    split
    · simp
    · exact (List.take_sublist _ _).nodup (hnodupOrd text)
  · intro text k hcon
    unfold extractKeywords
    split
    · simp
    · refine List.Pairwise.take ?_
      unfold palavrasOrdenadas
      dsimp only []
      exact pairwise_ordenarPorFrequencia _ (hsem text hcon) _
  · intro text k w hw
    unfold extractKeywords at hw
    split at hw
    · simp at hw
    · have hw1 : w ∈ palavrasOrdenadas text := (List.take_sublist _ _).subset hw
      unfold palavrasOrdenadas at hw1
      dsimp only [] at hw1
      have hw2 := (perm_ordenarPorFrequencia _ _).mem_iff.mp hw1
      exact chaves_contarFrequencia_mem _ _ (mem_ordemChavesObjeto _ _ hw2)
  · intro text n hcon
    unfold palavrasOrdenadas
    dsimp only []
    exact filter_ordenarPorFrequencia _ (hsem text hcon) _ _

/-- Counterexample to C10 as stated, in two parts. First, the tokens aaa
and 111 tie in frequency and aaa is seen first, yet the all-digit token
111 is returned first, because the object enumeration puts array-index
keys before insertion-order keys. Second, in an input where the token
constructor occurs twice and xyz once, the count of constructor starts
from the inherited truthy `Object.prototype.constructor` and is therefore
a non-numeric string (`texto`), every comparison against it is NaN — a tie
for `SortCompare` — and the single tie of this two-element sort keeps
insertion order, as observed on Node: the strictly more frequent token
constructor is returned last, refuting the descending-frequency order. -/
theorem extractKeywords_contraexemplo :
    (extractKeywords "aaa 111" 10 = ["111", "aaa"] ∧
      extractKeywords "aaa 111" 10 ≠ ["aaa", "111"] ∧
      frequenciaDe (contarFrequencia (tokensFiltrados "aaa 111")) "aaa" =
        frequenciaDe (contarFrequencia (tokensFiltrados "aaa 111")) "111" ∧
      tokensFiltrados "aaa 111" = ["aaa", "111"]) ∧
    ((tokensFiltrados "xyz constructor constructor").count "constructor" = 2 ∧
      (tokensFiltrados "xyz constructor constructor").count "xyz" = 1 ∧
      contagemDe (contarFrequencia (tokensFiltrados "xyz constructor constructor"))
          "constructor" = ContagemJs.texto ∧
      extractKeywords "xyz constructor constructor" 10 = ["xyz", "constructor"]) := by
  decide

/-- Witness for the amended C10: the membership conjunct and the guarded
ordering conjunct applied at a concrete text, whose tokens do not include
constructor. -/
theorem extractKeywords_propriedades_witness :
    ("nome" ∈ extractKeywords "nome do usuario" 10 ∧
      "nome" ∈ tokensFiltrados "nome do usuario") ∧
    ("constructor" ∉ tokensFiltrados "nome do usuario" ∧
      (extractKeywords "nome do usuario" 10).Pairwise (fun a b =>
        frequenciaDe (contarFrequencia (tokensFiltrados "nome do usuario")) b ≤
          frequenciaDe (contarFrequencia (tokensFiltrados "nome do usuario")) a)) :=
  ⟨⟨by decide, extractKeywords_propriedades.2.2.2.2.1 "nome do usuario" 10 "nome" (by decide)⟩,
   ⟨by decide, extractKeywords_propriedades.2.2.2.1 "nome do usuario" 10 (by decide)⟩⟩
